import Mathlib

/-!
# Subscription service: entity, application service and SQL repository

A shallow embedding of the Go packages `internal/models`, `internal/service`,
`internal/storage`, `internal/storage/postgresql`, `internal/http/api` and
`pkg/storage/postgresql`, followed by theorems about them.

Conventions of the embedding

* `time.Time` is an instant (nanoseconds on the time line) together with a
  location; `UTC()` keeps the instant and sets the location to UTC, and
  `Before`/`After`/`Equal` compare instants only, as in Go.
* `time.Now()` is an explicit argument `now` of every function that reads the
  clock.
* `uuid.UUID` is the number held by its 16 bytes, `uuid.Nil` is zero;
  `uuid.NewV7()` is an explicit argument holding what the generator returns.
* `int64` values are integers; where the code does arithmetic on them the result
  is brought back into the `int64` range by `wrapInt64`.
* A method with a pointer receiver that returns `error` becomes a function to
  the pair (receiver after the call, returned error), so that the state after a
  failed call can be observed.
* Log calls have no effect on results and are left out.
-/

/-! ## Standard-library pieces -/

deriving instance DecidableEq for Except

namespace time

/-- Go `time.Time`: an instant and a location (0 is UTC). -/
structure Time where
  nanos : Int
  loc : Nat
deriving DecidableEq, Repr

/-- Go `Time.UTC`: the same instant with the location set to UTC. -/
def Time.UTC (t : Time) : Time := { t with loc := 0 }

/-- Go `Time.Before`: the instant `t` is before the instant `u`. -/
def Time.Before (t u : Time) : Bool := decide (t.nanos < u.nanos)

/-- Go `Time.After`: the instant `t` is after the instant `u`. -/
def Time.After (t u : Time) : Bool := decide (u.nanos < t.nanos)

/-- Go `Time.Equal`: both values denote the same instant. -/
def Time.Equal (t u : Time) : Bool := decide (t.nanos = u.nanos)

end time

namespace uuid

/-- Go `uuid.UUID`, as the number held by its 16 bytes. -/
abbrev UUID := Nat

/-- Go `uuid.Nil`: all bytes zero. -/
def Nil : UUID := 0

end uuid

namespace strings

/-- Go `strings.Trim(s, cutset)`: `s` without the leading and trailing
characters that occur in `cutset`. -/
def Trim (s cutset : String) : String :=
  ⟨(s.data.dropWhile (fun c => cutset.data.contains c)).rdropWhile
    (fun c => cutset.data.contains c)⟩

end strings

/-! ## The specification's reading of trimming -/

namespace spec

/-- The specification's "after trimming whitespace": the string without its
leading and trailing whitespace characters (space, tab, carriage return,
newline). The code does not call it; it is here to be compared with
`strings.Trim(service, " ")`. -/
def trimWhitespace (s : String) : String :=
  ⟨(s.data.dropWhile Char.isWhitespace).rdropWhile Char.isWhitespace⟩

end spec

/-! ## Package `models` -/

namespace models

open time uuid

abbrev PersonID := UUID
abbrev ServiceName := String
abbrev SubscriptionID := UUID

/-- The `Subscription` struct; `CompletedAt` is a nullable pointer in Go. -/
structure Subscription where
  ID : SubscriptionID
  ServiceName : ServiceName
  PriceRUB : Int
  StartedAt : Time
  CompletedAt : Option Time
  Owner : PersonID
deriving DecidableEq, Repr

/-- The constructor `NewSubscription`; `now` is the value of `time.Now()` and
`newV7` the result of `uuid.NewV7()`. -/
def NewSubscription (now : Time) (newV7 : Except String UUID) (owner : PersonID)
    (priceRUB : Int) (service : ServiceName) (startTime : Time) (endTime : Option Time) :
    Except String Subscription :=
  let startTime := startTime.UTC
  if now.UTC.Before startTime then
    .error "can not create subscription: date has not come yet"
  else if owner = uuid.Nil then
    .error "can not create subscription: user id was not provided"
  else
    let service := strings.Trim service " "
    if service = "" then
      .error "can not create subscription: subscribed service is not provided"
    else if priceRUB < 0 then
      .error "can not create subscription: invalid subscription price"
    else
      let endTime := endTime.map Time.UTC
      if (match endTime with
          | some e => e.Before startTime
          | none => false) then
        .error "can not create subscription: start time must be less than end time"
      else
        match newV7 with
        | .error _ =>
          .error "can not create subscription: could not generate subscription id"
        | .ok id =>
          .ok { ID := id, ServiceName := service, PriceRUB := priceRUB,
                StartedAt := startTime, CompletedAt := endTime, Owner := owner }

/-- Method `IsCompleted`. -/
def Subscription.IsCompleted (s : Subscription) : Bool := s.CompletedAt.isSome

/-- Method `ChangeServiceName`: receiver after the call and returned error. -/
def Subscription.ChangeServiceName (s : Subscription) (srvName : String) :
    Subscription × Option String :=
  if srvName ≠ "" then
    ({ s with ServiceName := srvName }, none)
  else
    (s, some "can not update subscription: subscribed service is not provided")

/-- Method `ResetEndTime`. -/
def Subscription.ResetEndTime (s : Subscription) : Subscription :=
  { s with CompletedAt := none }

/-- Method `ChangeStartTime`; `now` is the value of `time.Now()`. -/
def Subscription.ChangeStartTime (now : Time) (s : Subscription) (startTime : Time) :
    Subscription × Option String :=
  if (match s.CompletedAt with
      | some c => startTime.UTC.After c
      | none => false) then
    (s, some "can not update subscription: start time must be less than end time")
  else if now.UTC.Before startTime.UTC then
    (s, some "can not update subscription: date has not come yet")
  else
    ({ s with StartedAt := startTime.UTC }, none)

/-- Method `ChangeEndTime`. -/
def Subscription.ChangeEndTime (s : Subscription) (endTime : Time) :
    Subscription × Option String :=
  if s.StartedAt.After endTime.UTC then
    (s, some "can not update subscription: start time must be less than end time")
  else
    let utcEndTime := endTime.UTC
    ({ s with CompletedAt := some utcEndTime }, none)

/-- Method `ChangeOwner`. -/
def Subscription.ChangeOwner (s : Subscription) (owner : PersonID) :
    Subscription × Option String :=
  if owner = uuid.Nil then
    (s, some "can not update subscription: user id was not provided")
  else
    ({ s with Owner := owner }, none)

/-- Method `ChangePrice`. -/
def Subscription.ChangePrice (s : Subscription) (price : Int) :
    Subscription × Option String :=
  if price < 0 then
    (s, some "can not update subscription: invalid subscription price")
  else
    ({ s with PriceRUB := price }, none)

end models

/-! ## Go error values -/

namespace errors

/-- The Go `error` values that reach the repository boundary: the sentinel
`storage.ErrSubscriptionNotFound`, the driver sentinel `pgx.ErrNoRows`, a
`*pgconn.PgError`, any other driver or network error, and an error wrapped by
`fmt.Errorf("...: %w", inner)`. -/
inductive Error where
  | ErrSubscriptionNotFound
  | ErrNoRows
  | PgError (code : String)
  | other (msg : String)
  | wrap (msg : String) (inner : Error)
deriving DecidableEq, Repr

/-- Go `errors.Is(err, target)` for a comparable target: `err` or an error it
wraps equals `target`. -/
def Is : Error → Error → Bool
  | .wrap m inner, target => decide (Error.wrap m inner = target) || Is inner target
  | err, target => decide (err = target)

/-- Go `errors.As(err, &pgErr)` with `pgErr` a `*pgconn.PgError`: the first
`PgError` in the chain of `err`. -/
def AsPgError : Error → Option Error
  | .PgError code => some (.PgError code)
  | .wrap _ inner => AsPgError inner
  | _ => none

end errors

/-! ## Package `storage` -/

namespace storage

open time uuid models errors

/-- The sentinel `ErrSubscriptionNotFound`. -/
def ErrSubscriptionNotFound : Error := Error.ErrSubscriptionNotFound

/-- The `SubscriptionsFilter` struct. -/
structure SubscriptionsFilter where
  ServiceName : ServiceName
  OwnerID : PersonID
  StartTime : Option Time
  EndTime : Option Time
deriving DecidableEq, Repr

/-- The `SubscriptionsStorage` interface over a store state `σ`: every method
takes the store and gives back the store after the call and what it returns
(`none` is a nil error). -/
structure SubscriptionsStorage (σ : Type) where
  Add : σ → Subscription → σ × Option Error
  RemoveByID : σ → SubscriptionID → σ × Option Error
  Update : σ → Subscription → σ × Option Error
  FindByID : σ → SubscriptionID → σ × Except Error Subscription
  Find : σ → SubscriptionsFilter → σ × Except Error (List Subscription)

/-- A call made on the `SubscriptionsStorage` interface, with its argument. -/
inductive Call where
  | Add (s : Subscription)
  | RemoveByID (id : SubscriptionID)
  | Update (s : Subscription)
  | FindByID (id : SubscriptionID)
  | Find (f : SubscriptionsFilter)
deriving DecidableEq, Repr

end storage

/-! ## Package `service` -/

namespace service

open time uuid models errors storage

/-- The string type `ErrorCode`. -/
abbrev ErrorCode := String

def ErrInvalidInput : ErrorCode := "invalid_input"
def ErrNotFound : ErrorCode := "not_found"
def ErrInternal : ErrorCode := "internal"

/-- The `ServiceError` struct. -/
structure ServiceError where
  Code : ErrorCode
  Message : String
deriving DecidableEq, Repr

def NewInvalidInputError (message : String) : ServiceError :=
  { Code := ErrInvalidInput, Message := message }

def NewNotFoundError (message : String) : ServiceError :=
  { Code := ErrNotFound, Message := message }

def NewInternalError (message : String) : ServiceError :=
  { Code := ErrInternal, Message := message }

/-- The `CreateNewSubscriptionArgs` struct. -/
structure CreateNewSubscriptionArgs where
  UserID : PersonID
  Service : ServiceName
  StartTime : Time
  EndTime : Option Time
  PriceRUB : Int
deriving DecidableEq, Repr

/-- The `UpdateExistingSubscriptionArgs` struct. -/
structure UpdateExistingSubscriptionArgs where
  SubscriptionID : SubscriptionID
  UserID : PersonID
  Service : ServiceName
  StartTime : Time
  EndTime : Option Time
  PriceRUB : Int
deriving DecidableEq, Repr

/-- What a service method leaves behind: the store after the call, the calls it
made on the storage interface (in order), and what it returned. -/
structure Run (σ α : Type) where
  store : σ
  calls : List Call
  result : Except ServiceError α

/-- Method `CreateNewSubscription`. -/
def CreateNewSubscription {σ : Type} (st : SubscriptionsStorage σ) (now : Time)
    (newV7 : Except String UUID) (db : σ) (c : CreateNewSubscriptionArgs) :
    Run σ Subscription :=
  match NewSubscription now newV7 c.UserID c.PriceRUB c.Service c.StartTime c.EndTime with
  | .error err => ⟨db, [], .error (NewInvalidInputError err)⟩
  | .ok sub =>
    match st.Add db sub with
    | (db1, some _) =>
      ⟨db1, [Call.Add sub], .error (NewInternalError "failed to create subscription")⟩
    | (db1, none) => ⟨db1, [Call.Add sub], .ok sub⟩

/-- Method `UpdateExistingSubscription`. -/
def UpdateExistingSubscription {σ : Type} (st : SubscriptionsStorage σ) (now : Time)
    (db : σ) (u : UpdateExistingSubscriptionArgs) : Run σ Subscription :=
  match st.FindByID db u.SubscriptionID with
  | (db1, .error err) =>
    if errors.Is err ErrSubscriptionNotFound then
      ⟨db1, [Call.FindByID u.SubscriptionID], .error (NewNotFoundError "subscription not found")⟩
    else
      ⟨db1, [Call.FindByID u.SubscriptionID],
        .error (NewInternalError "failed to update subscription")⟩
  | (db1, .ok sub) =>
    match sub.ChangeOwner u.UserID with
    | (_, some err) =>
      ⟨db1, [Call.FindByID u.SubscriptionID], .error (NewInvalidInputError err)⟩
    | (sub, none) =>
      let sub := sub.ResetEndTime
      match sub.ChangeStartTime now u.StartTime with
      | (_, some err) =>
        ⟨db1, [Call.FindByID u.SubscriptionID], .error (NewInvalidInputError err)⟩
      | (sub, none) =>
        match (match u.EndTime with
               | some e => sub.ChangeEndTime e
               | none => (sub, none)) with
        | (_, some err) =>
          ⟨db1, [Call.FindByID u.SubscriptionID], .error (NewInvalidInputError err)⟩
        | (sub, none) =>
          match sub.ChangePrice u.PriceRUB with
          | (_, some err) =>
            ⟨db1, [Call.FindByID u.SubscriptionID], .error (NewInvalidInputError err)⟩
          | (sub, none) =>
            match sub.ChangeServiceName u.Service with
            | (_, some err) =>
              ⟨db1, [Call.FindByID u.SubscriptionID], .error (NewInvalidInputError err)⟩
            | (sub, none) =>
              match st.Update db1 sub with
              | (db2, some _) =>
                ⟨db2, [Call.FindByID u.SubscriptionID, Call.Update sub],
                  .error (NewInternalError "failed to update subscription")⟩
              | (db2, none) =>
                ⟨db2, [Call.FindByID u.SubscriptionID, Call.Update sub], .ok sub⟩

/-- Method `FindSubscriptionByID`. -/
def FindSubscriptionByID {σ : Type} (st : SubscriptionsStorage σ) (db : σ)
    (id : SubscriptionID) : Run σ Subscription :=
  match st.FindByID db id with
  | (db1, .error err) =>
    if errors.Is err ErrSubscriptionNotFound then
      ⟨db1, [Call.FindByID id], .error (NewNotFoundError "subscription not found")⟩
    else
      ⟨db1, [Call.FindByID id], .error (NewInternalError "failed to fetch subscription")⟩
  | (db1, .ok sub) => ⟨db1, [Call.FindByID id], .ok sub⟩

/-- Method `RemoveExistingSubscription`. -/
def RemoveExistingSubscription {σ : Type} (st : SubscriptionsStorage σ) (db : σ)
    (id : SubscriptionID) : Run σ Unit :=
  match st.RemoveByID db id with
  | (db1, some err) =>
    if errors.Is err ErrSubscriptionNotFound then
      ⟨db1, [Call.RemoveByID id], .error (NewNotFoundError "subscription not found")⟩
    else
      ⟨db1, [Call.RemoveByID id], .error (NewInternalError "failed to remove subscription")⟩
  | (db1, none) => ⟨db1, [Call.RemoveByID id], .ok ()⟩

end service

/-! ## Package `storage/postgresql`

The repository runs fixed SQL statements through a `pgsql.Client`. The table
`subscriptions` is a list of rows and every statement has its SQL meaning on
that list. The schema and the driver are not part of the sources: whatever makes
the database refuse a call (a constraint, a lost connection) is the error that
the `Client` value holds for that call. A transaction that is rolled back, or
whose commit fails, leaves the table as it was. -/

namespace postgresql

open time uuid models errors storage

/-- A row of the table `subscriptions`. -/
structure Row where
  id : SubscriptionID
  owner_id : PersonID
  service_name : String
  price : Int
  is_deleted : Bool
  start_time : Time
  end_time : Option Time
deriving DecidableEq, Repr

/-- The failures of the `pgsql.Client` behind the repository: the error (if any)
that `Begin`, `tx.Exec`, `tx.Commit`, `Query`/`QueryRow(..).Scan` and
`rows.Err` return. -/
structure Client where
  begin : Option Error
  exec : Option Error
  commit : Option Error
  query : Option Error
  rowsErr : Option Error
deriving DecidableEq, Repr

/-- A client none of whose calls fails. -/
def healthy : Client :=
  { begin := none, exec := none, commit := none, query := none, rowsErr := none }

/-- The columns read by the `SELECT` statements, scanned into a `Subscription`. -/
def Row.scan (r : Row) : Subscription :=
  { ID := r.id, Owner := r.owner_id, ServiceName := r.service_name, PriceRUB := r.price,
    StartedAt := r.start_time, CompletedAt := r.end_time }

/-- Method `Add`: `INSERT INTO subscriptions (...) VALUES ($1, ..., 0::BIT, $5, $6)`. -/
def Add (c : Client) (tbl : List Row) (sub : Subscription) : List Row × Option Error :=
  let op := "storage.postgresql.subscriptions.Add"
  match c.begin with
  | some err => (tbl, some (.wrap op err))
  | none =>
    let endArg : Option Time :=
      if sub.IsCompleted then sub.CompletedAt.map Time.UTC else none
    match c.exec with
    | some err =>
      match AsPgError err with
      | some pgErr => (tbl, some (.wrap (op ++ ": database error") pgErr))
      | none => (tbl, some (.wrap op err))
    | none =>
      match c.commit with
      | some err => (tbl, some (.wrap op err))
      | none =>
        (tbl ++ [{ id := sub.ID, owner_id := sub.Owner, service_name := sub.ServiceName,
                   price := sub.PriceRUB, is_deleted := false,
                   start_time := sub.StartedAt.UTC, end_time := endArg }], none)

/-- Method `RemoveByID`:
`UPDATE subscriptions SET is_deleted = 1::BIT WHERE id = $1 AND is_deleted = 0::BIT`.
The command tag of `tx.Exec` (the number of rows affected) is discarded. -/
def RemoveByID (c : Client) (tbl : List Row) (id : SubscriptionID) :
    List Row × Option Error :=
  let op := "storage.postgresql.subscriptions.RemoveByID"
  match c.begin with
  | some err => (tbl, some (.wrap op err))
  | none =>
    match c.exec with
    | some err =>
      match AsPgError err with
      | some pgErr => (tbl, some (.wrap (op ++ ": database error") pgErr))
      | none => (tbl, some (.wrap op err))
    | none =>
      match c.commit with
      | some err => (tbl, some (.wrap op err))
      | none =>
        (tbl.map (fun r =>
          if r.id = id ∧ r.is_deleted = false then { r with is_deleted := true } else r), none)

/-- Method `Update`: `UPDATE subscriptions SET owner_id = $1, service_name = $2,
price = $3, start_time = $4, end_time = $5 WHERE id = $6 AND is_deleted = 0::BIT`.
The command tag of `tx.Exec` is discarded. -/
def Update (c : Client) (tbl : List Row) (sub : Subscription) : List Row × Option Error :=
  let op := "storage.postgresql.subscriptions.Update"
  match c.begin with
  | some err => (tbl, some (.wrap op err))
  | none =>
    let endArg : Option Time :=
      if sub.IsCompleted then sub.CompletedAt.map Time.UTC else none
    match c.exec with
    | some err =>
      match AsPgError err with
      | some pgErr => (tbl, some (.wrap (op ++ ": database error") pgErr))
      | none => (tbl, some (.wrap op err))
    | none =>
      match c.commit with
      | some err => (tbl, some (.wrap op err))
      | none =>
        (tbl.map (fun r =>
          if r.id = sub.ID ∧ r.is_deleted = false then
            { r with owner_id := sub.Owner, service_name := sub.ServiceName,
                     price := sub.PriceRUB, start_time := sub.StartedAt.UTC,
                     end_time := endArg }
          else r), none)

/-- Method `FindByID`: `SELECT ... FROM subscriptions WHERE id = $1 AND
is_deleted = 0::BIT`, scanned with `QueryRow(..).Scan`, which returns
`pgx.ErrNoRows` when no row is selected. -/
def FindByID (c : Client) (tbl : List Row) (id : SubscriptionID) :
    List Row × Except Error Subscription :=
  let op := "storage.postgresql.subscriptions.FindByID"
  let selected := tbl.find? (fun r => decide (r.id = id ∧ r.is_deleted = false))
  let scanned : Except Error Subscription :=
    match c.query with
    | some err => .error err
    | none =>
      match selected with
      | none => .error Error.ErrNoRows
      | some r => .ok r.scan
  match scanned with
  | .error err =>
    match AsPgError err with
    | some pgErr => (tbl, .error (.wrap (op ++ ": database error") pgErr))
    | none =>
      if errors.Is err Error.ErrNoRows then (tbl, .error ErrSubscriptionNotFound)
      else (tbl, .error (.wrap op err))
  | .ok sub => (tbl, .ok sub)

/-- Method `Find`: the base `SELECT ... WHERE is_deleted = 0::BIT` with one
`AND` predicate for every filter field that is set, `ORDER BY id`. -/
def Find (c : Client) (tbl : List Row) (f : SubscriptionsFilter) :
    List Row × Except Error (List Subscription) :=
  let op := "storage.postgresql.subscriptions.Find"
  match c.query with
  | some err =>
    match AsPgError err with
    | some pgErr => (tbl, .error (.wrap (op ++ ": database error") pgErr))
    | none => (tbl, .error (.wrap op err))
  | none =>
    let selected := tbl.filter (fun r =>
      r.is_deleted = false
      && (f.OwnerID = uuid.Nil || r.owner_id = f.OwnerID)
      && (f.ServiceName = "" || r.service_name = f.ServiceName)
      && (match f.StartTime with
          | some t => decide (t.UTC.nanos ≤ r.start_time.nanos)
          | none => true)
      && (match f.EndTime with
          | some t => decide (r.start_time.nanos ≤ t.UTC.nanos)
          | none => true))
    let subs := (selected.insertionSort (fun a b => a.id ≤ b.id)).map Row.scan
    match c.rowsErr with
    | some err => (tbl, .error (.wrap op err))
    | none => (tbl, .ok subs)

/-- The repository built by `NewSubscriptionStorage`. -/
def NewSubscriptionStorage (c : Client) : SubscriptionsStorage (List Row) :=
  { Add := Add c, RemoveByID := RemoveByID c, Update := Update c,
    FindByID := FindByID c, Find := Find c }

end postgresql

/-! ## Sequences of mutator calls -/

namespace models

open time uuid

/-- One call of a mutator of `Subscription`, with its arguments (and the clock
reading for `ChangeStartTime`). -/
inductive Mutation where
  | ChangeServiceName (srvName : String)
  | ResetEndTime
  | ChangeStartTime (now : Time) (startTime : Time)
  | ChangeEndTime (endTime : Time)
  | ChangeOwner (owner : PersonID)
  | ChangePrice (price : Int)
deriving DecidableEq, Repr

/-- Perform one mutator call: the receiver after the call and the returned
error (`ResetEndTime` returns nothing). -/
def Mutation.call (s : Subscription) : Mutation → Subscription × Option String
  | .ChangeServiceName srvName => s.ChangeServiceName srvName
  | .ResetEndTime => (s.ResetEndTime, none)
  | .ChangeStartTime now startTime => s.ChangeStartTime now startTime
  | .ChangeEndTime endTime => s.ChangeEndTime endTime
  | .ChangeOwner owner => s.ChangeOwner owner
  | .ChangePrice price => s.ChangePrice price

/-- The receiver after a sequence of mutator calls, whether each call succeeds
or fails. -/
def Mutation.callAll (s : Subscription) (ms : List Mutation) : Subscription :=
  ms.foldl (fun cur m => (Mutation.call cur m).1) s

end models

/-! ## Machine integers -/

/-- The value an `int64` variable holds after it is assigned the arithmetic
result `x`: two's complement wrap-around into `[-2^63, 2^63)`. -/
def wrapInt64 (x : Int) : Int :=
  (x + 9223372036854775808) % 18446744073709551616 - 9223372036854775808

/-! ## Package `service`: the total-cost aggregation -/

namespace service

open time uuid models errors storage

/-- The `totalSubscriptionsPrice` struct; `TotalPriceRUB` is an `int64`. -/
structure totalSubscriptionsPrice where
  TotalPriceRUB : Int
deriving DecidableEq, Repr

/-- Method `CalculateTotalSubscriptionsPrice`. The loop
`totalCost += sub.PriceRUB` runs on an `int64` accumulator. -/
def CalculateTotalSubscriptionsPrice {σ : Type} (st : SubscriptionsStorage σ) (db : σ)
    (userID : PersonID) (serviceName : ServiceName) (startTime endTime : Option Time) :
    Run σ totalSubscriptionsPrice :=
  if userID = uuid.Nil then
    ⟨db, [], .error (NewInvalidInputError "user_id is required")⟩
  else if serviceName = "" then
    ⟨db, [], .error (NewInvalidInputError "service_name is required")⟩
  else if (match startTime, endTime with
           | some s, some e => !(e.After s)
           | _, _ => false) then
    ⟨db, [], .error (NewInvalidInputError "end time must be after start time")⟩
  else
    let f : SubscriptionsFilter :=
      { OwnerID := userID, ServiceName := serviceName, StartTime := startTime,
        EndTime := endTime }
    match st.Find db f with
    | (db1, .error _) =>
      ⟨db1, [Call.Find f], .error (NewInternalError "failed to calculate total cost")⟩
    | (db1, .ok subs) =>
      let totalCost : Int := subs.foldl (fun total sub => wrapInt64 (total + sub.PriceRUB)) 0
      ⟨db1, [Call.Find f], .ok { TotalPriceRUB := totalCost }⟩

end service

/-! ## Package `http/api` -/

namespace api

open service errors

/-- The generated type `ErrorResponse`: its declaration is not among the
sources; `handleServiceError` builds it from its one field `Error`. -/
structure ErrorResponse where
  Error : String
deriving DecidableEq, Repr

/-- An `*echo.HTTPError` as built by `echo.NewHTTPError(code, message)`. -/
structure HTTPError where
  Code : Nat
  Message : ErrorResponse
deriving DecidableEq, Repr

/-- A non-nil value of the interface `error` as `handleServiceError` sees it:
either its dynamic type is `*service.ServiceError`, or it is any other error. -/
inductive ErrorValue where
  | ServiceError (e : service.ServiceError)
  | other (e : errors.Error)
deriving DecidableEq, Repr

def StatusBadRequest : Nat := 400
def StatusNotFound : Nat := 404
def StatusInternalServerError : Nat := 500

/-- Function `handleServiceError`; `none` is the nil error. -/
def handleServiceError (err : Option ErrorValue) : Option HTTPError :=
  match err with
  | none => none
  | some (.ServiceError svcErr) =>
    if svcErr.Code = ErrInvalidInput then
      some { Code := StatusBadRequest, Message := { Error := svcErr.Message } }
    else if svcErr.Code = ErrNotFound then
      some { Code := StatusNotFound, Message := { Error := svcErr.Message } }
    else
      some { Code := StatusInternalServerError, Message := { Error := "internal server error" } }
  | some (.other _) =>
    some { Code := StatusInternalServerError, Message := { Error := "internal server error" } }

end api

/-! ## Package `pkg/storage/postgresql` (imported as `pgsql`) -/

namespace pgsql

open errors

/-- What a run of `doWithTries` leaves behind: the error it returns, how many
times `fn` was invoked, and the arguments of `time.Sleep` in order. -/
structure Tries where
  err : Option Error
  invoked : Nat
  slept : List Int
deriving DecidableEq, Repr

/-- The loop `for attemtps > 0` of `doWithTries`. `fn i` is what the `i`-th
invocation of `fn` returns (counted from 0); the first argument is the value of
`attemtps`, then come the number of invocations so far, `delay`,
`delayIncreaseFactor`, the named result `err` and the sleeps so far. `delay` and
`delayIncreaseFactor` are `int64`. -/
def doWithTriesLoop (fn : Nat → Option Error) :
    Nat → Nat → Int → Int → Option Error → List Int → Tries
  | 0, invoked, _, _, err, slept => { err := err, invoked := invoked, slept := slept }
  | attemtps + 1, invoked, delay, delayIncreaseFactor, _, slept =>
    match fn invoked with
    | some e =>
      let delayIncreaseFactor := wrapInt64 (delayIncreaseFactor + 1)
      doWithTriesLoop fn attemtps (invoked + 1) (wrapInt64 (delay * delayIncreaseFactor))
        delayIncreaseFactor (some e) (slept ++ [delay])
    | none => { err := none, invoked := invoked + 1, slept := slept }

/-- Function `doWithTries`; a non-positive `attemtps` never enters the loop. -/
def doWithTries (fn : Nat → Option Error) (attemtps : Int) (delayFragment : Int) : Tries :=
  doWithTriesLoop fn attemtps.toNat 0 delayFragment 1 none []

/-- One second, as a `time.Duration` (nanoseconds). -/
def Second : Int := 1000000000

/-- Function `NewClient`: `connect i` is what the `i`-th call of
`pgxpool.Connect` returns; the result is the pair `(pool, err)`, where `pool` is
what the last call assigned to it (nil before any call and after a failed
one). -/
def NewClient {Pool : Type} (connect : Nat → Except Error Pool) (ConnectAttempts : Int) :
    Option Pool × Option Error :=
  let tries := doWithTries (fun i =>
    match connect i with
    | .error e => some e
    | .ok _ => none) ConnectAttempts (5 * Second)
  let pool : Option Pool :=
    match tries.invoked with
    | 0 => none
    | i + 1 =>
      match connect i with
      | .error _ => none
      | .ok p => some p
  (pool, tries.err)

end pgsql

/-! ## Package `storage/postgresql`: the text of the `Find` query -/

namespace postgresql

open time uuid models errors storage

/-- A value passed as a query argument. -/
inductive QueryArg where
  | uuid (u : UUID)
  | text (s : String)
  | timestamp (t : Time)
deriving DecidableEq, Repr

/-- The constant `sqlBase` of `Find`. -/
def sqlBase : String :=
  "\n\t\tSELECT \n\t\t\t\t  id\n\t\t\t\t, owner_id\n\t\t\t\t, service_name\n\t\t\t\t, price\n\t\t\t\t, start_time\n\t\t\t\t, end_time\n\t\tFROM subscriptions\n\t\tWHERE is_deleted = 0::BIT"

/-- The query text and the argument list that `Find` hands to `client.Query`. -/
def FindQuery (f : SubscriptionsFilter) : String × List QueryArg :=
  let sqlB := sqlBase
  let args : List QueryArg := []
  let (sqlB, args) :=
    if f.OwnerID ≠ uuid.Nil then
      (sqlB ++ (" AND owner_id = $" ++ toString (args.length + 1)),
        args ++ [QueryArg.uuid f.OwnerID])
    else (sqlB, args)
  let (sqlB, args) :=
    if f.ServiceName ≠ "" then
      (sqlB ++ (" AND service_name = $" ++ toString (args.length + 1)),
        args ++ [QueryArg.text f.ServiceName])
    else (sqlB, args)
  let (sqlB, args) :=
    match f.StartTime with
    | some t =>
      (sqlB ++ (" AND start_time >= $" ++ toString (args.length + 1)),
        args ++ [QueryArg.timestamp t.UTC])
    | none => (sqlB, args)
  let (sqlB, args) :=
    match f.EndTime with
    | some t =>
      (sqlB ++ (" AND start_time <= $" ++ toString (args.length + 1)),
        args ++ [QueryArg.timestamp t.UTC])
    | none => (sqlB, args)
  (sqlB ++ " ORDER BY id;", args)

end postgresql

open time uuid models errors storage service

/-! ## Lemmas on the standard-library pieces -/

theorem Time.Before_UTC (t u : Time) : t.UTC.Before u.UTC = t.Before u := rfl

theorem Time.After_iff (t u : Time) : t.After u = u.Before t := rfl

theorem Time.Equal_UTC (t : Time) : t.UTC.Equal t = true := by
  simp [Time.Equal, Time.UTC]

theorem String.eq_empty_iff_data (s : String) : s = "" ↔ s.data = [] := by
  constructor
  · intro h; subst h; rfl
  · intro h
    cases s with
    | mk d => simp at h; subst h; rfl

theorem List.dropWhile_eq_nil_of_rdropWhile (p : Char → Bool) (l : List Char)
    (h : (l.dropWhile p).rdropWhile p = []) : l.dropWhile p = [] := by
  induction l with
  | nil => rfl
  | cons a t ih =>
    by_cases hp : p a = true
    · simp only [List.dropWhile_cons_of_pos hp] at h ⊢
      exact ih h
    · simp only [List.dropWhile_cons_of_neg hp] at h ⊢
      rw [List.rdropWhile_eq_nil_iff] at h
      exact absurd (h a (List.mem_cons_self a t)) hp

/-- Trimming spaces leaves nothing exactly when every character is a space. -/
theorem strings.Trim_space_eq_empty_iff (s : String) :
    strings.Trim s " " = "" ↔ ∀ c ∈ s.data, c = ' ' := by
  have hp : ∀ c : Char, (" ".data.contains c) = true ↔ c = ' ' := by
    intro c
    simp [List.contains]
  rw [String.eq_empty_iff_data]
  simp only [strings.Trim]
  constructor
  · intro h
    have h1 := List.dropWhile_eq_nil_of_rdropWhile _ _ h
    rw [List.dropWhile_eq_nil_iff] at h1
    intro c hc
    exact (hp c).1 (h1 c hc)
  · intro h
    have h1 : s.data.dropWhile (fun c => " ".data.contains c) = [] := by
      rw [List.dropWhile_eq_nil_iff]
      intro c hc
      exact (hp c).2 (h c hc)
    rw [h1]
    rfl

/-! ## The constructor `NewSubscription` -/

/-- C1, as stated, fails when "trim" removes whitespace: the name made of a
newline and a tab is empty after trimming whitespace, yet `NewSubscription`
succeeds with otherwise valid arguments, and the name it stores is the name as
given, not the whitespace-trimmed one. -/
theorem NewSubscription_succeeds_on_whitespace_name :
    spec.trimWhitespace "\n\t" = "" ∧
    NewSubscription ⟨100, 0⟩ (.ok 7) 3 500 "\n\t" ⟨50, 0⟩ (some ⟨60, 0⟩)
      = .ok { ID := 7, ServiceName := "\n\t", PriceRUB := 500, StartedAt := ⟨50, 0⟩,
              CompletedAt := some ⟨60, 0⟩, Owner := 3 } ∧
    "\n\t" ≠ spec.trimWhitespace "\n\t" := by
  decide

/-- C1, amended. With a working id generator, `NewSubscription` succeeds exactly
when the start time is not after `now`, the owner is not `uuid.Nil`, the service
name is not empty after `strings.Trim(service, " ")`, the price is not negative
and a given end time is not before the start time. The trim removes leading and
trailing space characters U+0020 only, so the third rule holds exactly when the
name contains a character other than a space. The entity returned on success
has the generated id, the owner and price given, the name without its leading
and trailing spaces, the start time (same instant, in UTC) and the end time
given (same instant, in UTC; absent when none was given). An end time equal to
the start time is accepted. -/
theorem NewSubscription_succeeds_iff (now : Time) (id : UUID) (owner : PersonID)
    (priceRUB : Int) (service : ServiceName) (startTime : Time) (endTime : Option Time) :
    ((∃ sub, NewSubscription now (.ok id) owner priceRUB service startTime endTime = .ok sub) ↔
      (startTime.After now = false ∧ owner ≠ uuid.Nil ∧ strings.Trim service " " ≠ "" ∧
        0 ≤ priceRUB ∧ ∀ e, endTime = some e → e.Before startTime = false)) ∧
    (∀ sub, NewSubscription now (.ok id) owner priceRUB service startTime endTime = .ok sub →
      sub.ID = id ∧ sub.Owner = owner ∧ sub.PriceRUB = priceRUB ∧
      sub.ServiceName = strings.Trim service " " ∧
      sub.StartedAt = startTime.UTC ∧ sub.StartedAt.Equal startTime = true ∧
      sub.CompletedAt = endTime.map Time.UTC ∧
      (∀ e, endTime = some e → ∃ c, sub.CompletedAt = some c ∧ c.Equal e = true) ∧
      (endTime = none → sub.CompletedAt = none)) ∧
    (startTime.After now = false → owner ≠ uuid.Nil → strings.Trim service " " ≠ "" →
      0 ≤ priceRUB →
      ∃ sub, NewSubscription now (.ok id) owner priceRUB service startTime (some startTime)
        = .ok sub) ∧
    (strings.Trim service " " ≠ "" ↔ ∃ c ∈ service.data, c ≠ ' ') := by
  have hchar : strings.Trim service " " ≠ "" ↔ ∃ c ∈ service.data, c ≠ ' ' := by
    rw [Ne, strings.Trim_space_eq_empty_iff]
    push_neg
    rfl
  refine ⟨?_, ?_, ?_, hchar⟩
  · cases endTime with
    | none =>
      simp only [NewSubscription, Time.Before_UTC, Time.After_iff, Option.map]
      split_ifs <;> simp_all
    | some e =>
      simp only [NewSubscription, Time.Before_UTC, Time.After_iff, Option.map]
      split_ifs <;> simp_all
  · intro sub h
    cases endTime with
    | none =>
      simp only [NewSubscription, Option.map] at h
      split_ifs at h
      simp only [Except.ok.injEq] at h
      subst h
      simp [Time.Equal_UTC]
    | some e =>
      simp only [NewSubscription, Option.map] at h
      split_ifs at h
      simp only [Except.ok.injEq] at h
      subst h
      simp [Time.Equal_UTC]
  · intro h1 h2 h3 h4
    simp only [NewSubscription, Time.Before_UTC, Time.After_iff, Option.map] at h1 ⊢
    have h5 : startTime.Before startTime = false := by simp [Time.Before]
    simp [h1, h2, h3, h5, not_lt.mpr h4]

/-- C1 amended, at a concrete input: start 50 ≤ now 100, owner 3, name
`"  Netflix "`, price 500, end time equal to the start time. -/
theorem NewSubscription_succeeds_iff_witness :
    ∃ sub, NewSubscription ⟨100, 0⟩ (.ok 7) 3 500 "  Netflix " ⟨50, 2⟩ (some ⟨50, 2⟩) = .ok sub :=
  (NewSubscription_succeeds_iff ⟨100, 0⟩ 7 3 500 "  Netflix " ⟨50, 2⟩ (some ⟨50, 2⟩)).2.2.1
    (by decide) (by decide) (by decide) (by decide)

/-- C2, as stated, fails when "trim" removes whitespace: with a valid start time
and owner, the name `"\t"` (empty after trimming whitespace) and the price -5
violate rules 3 and 4, and the message returned is the one of rule 4, not the
one of rule 3. -/
theorem NewSubscription_reports_price_for_tab_name :
    spec.trimWhitespace "\t" = "" ∧
    NewSubscription ⟨100, 0⟩ (.ok 7) 3 (-5) "\t" ⟨50, 0⟩ none
      = .error "can not create subscription: invalid subscription price" ∧
    NewSubscription ⟨100, 0⟩ (.ok 7) 3 (-5) "\t" ⟨50, 0⟩ none
      ≠ .error "can not create subscription: subscribed service is not provided" := by
  decide

/-- C2, amended. `NewSubscription` reports the first violated rule in the order:
start time after `now`, nil owner, service name empty after
`strings.Trim(service, " ")` (that is, made of space characters U+0020 only),
negative price, end time before start time. Each message is returned whenever
its rule is violated and all earlier rules hold, whatever the later arguments
are and whatever the id generator would do; `CreateNewSubscription` hands the
same message on as an `InvalidInput` error without calling the repository. -/
theorem NewSubscription_first_violated_rule (now : Time) (newV7 : Except String UUID)
    (owner : PersonID) (priceRUB : Int) (service : ServiceName) (startTime : Time)
    (endTime : Option Time) :
    (startTime.After now = true →
      NewSubscription now newV7 owner priceRUB service startTime endTime
        = .error "can not create subscription: date has not come yet") ∧
    (startTime.After now = false → owner = uuid.Nil →
      NewSubscription now newV7 owner priceRUB service startTime endTime
        = .error "can not create subscription: user id was not provided") ∧
    (startTime.After now = false → owner ≠ uuid.Nil → strings.Trim service " " = "" →
      NewSubscription now newV7 owner priceRUB service startTime endTime
        = .error "can not create subscription: subscribed service is not provided") ∧
    (startTime.After now = false → owner ≠ uuid.Nil → strings.Trim service " " ≠ "" →
      priceRUB < 0 →
      NewSubscription now newV7 owner priceRUB service startTime endTime
        = .error "can not create subscription: invalid subscription price") ∧
    (startTime.After now = false → owner ≠ uuid.Nil → strings.Trim service " " ≠ "" →
      0 ≤ priceRUB → (∃ e, endTime = some e ∧ e.Before startTime = true) →
      NewSubscription now newV7 owner priceRUB service startTime endTime
        = .error "can not create subscription: start time must be less than end time") ∧
    (∀ (σ : Type) (st : SubscriptionsStorage σ) (db : σ) (msg : String),
      NewSubscription now newV7 owner priceRUB service startTime endTime = .error msg →
      (CreateNewSubscription st now newV7 db
          { UserID := owner, Service := service, StartTime := startTime,
            EndTime := endTime, PriceRUB := priceRUB }).result
        = .error { Code := ErrInvalidInput, Message := msg } ∧
      (CreateNewSubscription st now newV7 db
          { UserID := owner, Service := service, StartTime := startTime,
            EndTime := endTime, PriceRUB := priceRUB }).calls = []) ∧
    (strings.Trim service " " = "" ↔ ∀ c ∈ service.data, c = ' ') := by
  refine ⟨?_, ?_, ?_, ?_, ?_, ?_, strings.Trim_space_eq_empty_iff service⟩
  · intro h1
    simp only [NewSubscription, Time.Before_UTC, Time.After_iff] at h1 ⊢
    simp [h1]
  · intro h1 h2
    simp only [NewSubscription, Time.Before_UTC, Time.After_iff] at h1 ⊢
    simp [h1, h2]
  · intro h1 h2 h3
    simp only [NewSubscription, Time.Before_UTC, Time.After_iff] at h1 ⊢
    simp [h1, h2, h3]
  · intro h1 h2 h3 h4
    simp only [NewSubscription, Time.Before_UTC, Time.After_iff] at h1 ⊢
    simp [h1, h2, h3, h4]
  · rintro h1 h2 h3 h4 ⟨e, rfl, h5⟩
    simp only [NewSubscription, Time.Before_UTC, Time.After_iff, Option.map] at h1 ⊢
    simp [h1, h2, h3, not_lt.mpr h4, h5]
  · intro σ st db msg h
    simp [CreateNewSubscription, h, NewInvalidInputError]

/-- C2 amended, at a concrete input: a start time in the future together with a
nil owner and a negative price gives the message of the first rule. -/
theorem NewSubscription_first_violated_rule_witness :
    NewSubscription ⟨100, 0⟩ (.ok 7) uuid.Nil (-5) "Netflix" ⟨200, 0⟩ none
      = .error "can not create subscription: date has not come yet" :=
  (NewSubscription_first_violated_rule ⟨100, 0⟩ (.ok 7) uuid.Nil (-5) "Netflix" ⟨200, 0⟩ none).1
    (by decide)

/-- C3, as stated, fails: a service name made of one tab character is only
whitespace, and `NewSubscription` accepts it and keeps it as the name. -/
theorem NewSubscription_accepts_tab_name :
    "\t".data.all Char.isWhitespace = true ∧
    NewSubscription ⟨100, 0⟩ (.ok 7) 3 500 "\t" ⟨50, 0⟩ none
      = .ok { ID := 7, ServiceName := "\t", PriceRUB := 500, StartedAt := ⟨50, 0⟩,
              CompletedAt := none, Owner := 3 } := by
  decide

/-- C3, amended. When the start time is not after `now` and the owner is not
nil, `NewSubscription` fails with "subscribed service is not provided" exactly
when every character of the service name is the space character U+0020 (the
empty name included), whatever the price, the end time and the id generator. -/
theorem NewSubscription_blank_name_iff (now : Time) (newV7 : Except String UUID)
    (owner : PersonID) (priceRUB : Int) (service : ServiceName) (startTime : Time)
    (endTime : Option Time) (hstart : startTime.After now = false)
    (howner : owner ≠ uuid.Nil) :
    NewSubscription now newV7 owner priceRUB service startTime endTime
        = .error "can not create subscription: subscribed service is not provided" ↔
      ∀ c ∈ service.data, c = ' ' := by
  rw [← strings.Trim_space_eq_empty_iff]
  constructor
  · intro h
    by_contra hne
    simp only [NewSubscription, Time.Before_UTC, Time.After_iff] at hstart h
    simp only [hstart, howner, hne] at h
    cases newV7 <;> cases endTime <;> simp only [Option.map] at h <;> split_ifs at h <;>
      simp at h
  · intro h
    simp only [NewSubscription, Time.Before_UTC, Time.After_iff] at hstart ⊢
    simp [hstart, howner, h]

/-- C3 amended, at a concrete input: a name of three spaces. -/
theorem NewSubscription_blank_name_iff_witness :
    NewSubscription ⟨100, 0⟩ (.ok 7) 3 500 "   " ⟨50, 0⟩ none
      = .error "can not create subscription: subscribed service is not provided" :=
  (NewSubscription_blank_name_iff ⟨100, 0⟩ (.ok 7) 3 500 "   " ⟨50, 0⟩ none
    (by decide) (by decide)).2 (by decide)

/-! ## The mutators of `Subscription` -/

/-- One mutator call, failed or not, keeps the price non-negative, the owner
non-nil and the start instant at or before the completion instant. -/
theorem Mutation.call_keeps_invariants (s : Subscription) (m : Mutation)
    (h : 0 ≤ s.PriceRUB ∧ s.Owner ≠ uuid.Nil ∧
      ∀ c, s.CompletedAt = some c → s.StartedAt.nanos ≤ c.nanos) :
    0 ≤ (Mutation.call s m).1.PriceRUB ∧ (Mutation.call s m).1.Owner ≠ uuid.Nil ∧
      ∀ c, (Mutation.call s m).1.CompletedAt = some c →
        (Mutation.call s m).1.StartedAt.nanos ≤ c.nanos := by
  obtain ⟨hp, ho, hc⟩ := h
  cases m with
  | ChangeServiceName n =>
    simp only [Mutation.call, Subscription.ChangeServiceName]
    split_ifs <;> exact ⟨hp, ho, hc⟩
  | ResetEndTime =>
    simp only [Mutation.call, Subscription.ResetEndTime]
    exact ⟨hp, ho, by simp⟩
  | ChangeStartTime now t =>
    simp only [Mutation.call, Subscription.ChangeStartTime]
    cases hs : s.CompletedAt with
    | none =>
      simp only [hs] at hc ⊢
      split_ifs <;> simp_all
    | some c0 =>
      have hc0 := hc c0 hs
      simp only [hs] at hc ⊢
      split_ifs with h1 h2
      · exact ⟨hp, ho, by simpa [hs] using hc0⟩
      · exact ⟨hp, ho, by simpa [hs] using hc0⟩
      · refine ⟨hp, ho, ?_⟩
        intro c hc'
        simp only [Option.some.injEq] at hc'
        subst hc'
        simpa [Time.After, Time.UTC] using h1
  | ChangeEndTime e =>
    simp only [Mutation.call, Subscription.ChangeEndTime]
    split_ifs with h1
    · exact ⟨hp, ho, hc⟩
    · refine ⟨hp, ho, ?_⟩
      intro c hc'
      simp only [Option.some.injEq] at hc'
      subst hc'
      simpa [Time.After, Time.UTC] using h1
  | ChangeOwner o =>
    simp only [Mutation.call, Subscription.ChangeOwner]
    split_ifs with h1
    · exact ⟨hp, ho, hc⟩
    · exact ⟨hp, h1, hc⟩
  | ChangePrice p =>
    simp only [Mutation.call, Subscription.ChangePrice]
    split_ifs with h1
    · exact ⟨hp, ho, hc⟩
    · exact ⟨not_lt.mp h1, ho, hc⟩

/-- A sequence of mutator calls keeps the three invariants. -/
theorem Mutation.callAll_keeps_invariants (ms : List Mutation) (s : Subscription)
    (h : 0 ≤ s.PriceRUB ∧ s.Owner ≠ uuid.Nil ∧
      ∀ c, s.CompletedAt = some c → s.StartedAt.nanos ≤ c.nanos) :
    0 ≤ (Mutation.callAll s ms).PriceRUB ∧ (Mutation.callAll s ms).Owner ≠ uuid.Nil ∧
      ∀ c, (Mutation.callAll s ms).CompletedAt = some c →
        (Mutation.callAll s ms).StartedAt.nanos ≤ c.nanos := by
  induction ms generalizing s with
  | nil => exact h
  | cons m rest ih =>
    simp only [Mutation.callAll, List.foldl_cons]
    exact ih _ (Mutation.call_keeps_invariants s m h)

/-- An entity returned by `NewSubscription` has a non-negative price, a non-nil
owner and a start instant at or before its completion instant. -/
theorem NewSubscription_establishes_invariants (now : Time) (newV7 : Except String UUID)
    (owner : PersonID) (priceRUB : Int) (service : ServiceName) (startTime : Time)
    (endTime : Option Time) (s : Subscription)
    (h : NewSubscription now newV7 owner priceRUB service startTime endTime = .ok s) :
    0 ≤ s.PriceRUB ∧ s.Owner ≠ uuid.Nil ∧
      ∀ c, s.CompletedAt = some c → s.StartedAt.nanos ≤ c.nanos := by
  cases newV7 with
  | error e =>
    simp only [NewSubscription] at h
    split_ifs at h
  | ok id =>
    cases endTime with
    | none =>
      simp only [NewSubscription, Option.map] at h
      split_ifs at h with h1 h2 h3 h4
      simp only [Except.ok.injEq] at h
      subst h
      exact ⟨not_lt.mp h4, h2, by simp⟩
    | some e =>
      simp only [NewSubscription, Option.map] at h
      split_ifs at h with h1 h2 h3 h4 h5
      simp only [Except.ok.injEq] at h
      subst h
      refine ⟨not_lt.mp h4, h2, ?_⟩
      intro c hc
      simp only [Option.some.injEq] at hc
      subst hc
      simpa [Time.Before, Time.UTC] using h5

/-- C4. Every entity obtained from a successful `NewSubscription` followed by
any finite sequence of calls of `ChangeServiceName`, `ResetEndTime`,
`ChangeStartTime`, `ChangeEndTime`, `ChangeOwner` and `ChangePrice` (any
arguments, any clock readings, each call failing or not) has `PriceRUB ≥ 0`, an
owner other than `uuid.Nil`, and a start instant not after the completion
instant whenever `CompletedAt` is set. -/
theorem reachable_entity_invariants (now : Time) (newV7 : Except String UUID)
    (owner : PersonID) (priceRUB : Int) (service : ServiceName) (startTime : Time)
    (endTime : Option Time) (s0 : Subscription) (ms : List Mutation)
    (h : NewSubscription now newV7 owner priceRUB service startTime endTime = .ok s0) :
    0 ≤ (Mutation.callAll s0 ms).PriceRUB ∧ (Mutation.callAll s0 ms).Owner ≠ uuid.Nil ∧
      ∀ c, (Mutation.callAll s0 ms).CompletedAt = some c →
        (Mutation.callAll s0 ms).StartedAt.nanos ≤ c.nanos ∧
        (Mutation.callAll s0 ms).StartedAt.After c = false :=
  have key := Mutation.callAll_keeps_invariants ms s0
    (NewSubscription_establishes_invariants now newV7 owner priceRUB service startTime
      endTime s0 h)
  ⟨key.1, key.2.1, fun c hc => ⟨key.2.2 c hc, by simpa [Time.After] using key.2.2 c hc⟩⟩

/-- C4, at a concrete input: an entity created with an end time, then a failing
price change, a failing start-time change, an end-time change and a reset. -/
theorem reachable_entity_invariants_witness :
    0 ≤ (Mutation.callAll
          { ID := 7, ServiceName := "Netflix", PriceRUB := 500, StartedAt := ⟨50, 0⟩,
            CompletedAt := some ⟨60, 0⟩, Owner := 3 }
          [.ChangePrice (-1), .ChangeStartTime ⟨100, 0⟩ ⟨70, 0⟩, .ChangeEndTime ⟨80, 1⟩,
           .ChangeStartTime ⟨100, 0⟩ ⟨75, 0⟩, .ChangeOwner 0]).PriceRUB :=
  (reachable_entity_invariants ⟨100, 0⟩ (.ok 7) 3 500 "Netflix" ⟨50, 0⟩ (some ⟨60, 0⟩)
    { ID := 7, ServiceName := "Netflix", PriceRUB := 500, StartedAt := ⟨50, 0⟩,
      CompletedAt := some ⟨60, 0⟩, Owner := 3 }
    [.ChangePrice (-1), .ChangeStartTime ⟨100, 0⟩ ⟨70, 0⟩, .ChangeEndTime ⟨80, 1⟩,
     .ChangeStartTime ⟨100, 0⟩ ⟨75, 0⟩, .ChangeOwner 0] (by decide)).1

/-- C5, on the code: `NewSubscription` with the name `"Netflix"` succeeds, and
`ChangeServiceName(" ")` on the entity it returns succeeds as well and leaves a
`ServiceName` that is empty after trimming spaces. -/
theorem ChangeServiceName_accepts_blank_name :
    NewSubscription ⟨100, 0⟩ (.ok 7) 3 500 "Netflix" ⟨50, 0⟩ none
      = .ok { ID := 7, ServiceName := "Netflix", PriceRUB := 500, StartedAt := ⟨50, 0⟩,
              CompletedAt := none, Owner := 3 } ∧
    Subscription.ChangeServiceName
        { ID := 7, ServiceName := "Netflix", PriceRUB := 500, StartedAt := ⟨50, 0⟩,
          CompletedAt := none, Owner := 3 } " "
      = ({ ID := 7, ServiceName := " ", PriceRUB := 500, StartedAt := ⟨50, 0⟩,
           CompletedAt := none, Owner := 3 }, none) ∧
    strings.Trim (Mutation.callAll
        { ID := 7, ServiceName := "Netflix", PriceRUB := 500, StartedAt := ⟨50, 0⟩,
          CompletedAt := none, Owner := 3 } [.ChangeServiceName " "]).ServiceName " " = "" := by
  decide

/-- C6. A mutator that returns an error leaves the receiver as it was: for
`ChangeServiceName`, `ChangeStartTime`, `ChangeEndTime`, `ChangeOwner` and
`ChangePrice`, whenever the returned error is not nil the entity after the call
equals the entity before it, field by field. -/
theorem mutators_fail_without_mutation (s : Subscription) :
    (∀ srvName, (s.ChangeServiceName srvName).2 ≠ none → (s.ChangeServiceName srvName).1 = s) ∧
    (∀ now startTime, (s.ChangeStartTime now startTime).2 ≠ none →
      (s.ChangeStartTime now startTime).1 = s) ∧
    (∀ endTime, (s.ChangeEndTime endTime).2 ≠ none → (s.ChangeEndTime endTime).1 = s) ∧
    (∀ owner, (s.ChangeOwner owner).2 ≠ none → (s.ChangeOwner owner).1 = s) ∧
    (∀ price, (s.ChangePrice price).2 ≠ none → (s.ChangePrice price).1 = s) := by
  refine ⟨?_, ?_, ?_, ?_, ?_⟩
  · intro n
    simp only [Subscription.ChangeServiceName]
    split_ifs <;> simp
  · intro now t
    simp only [Subscription.ChangeStartTime]
    split_ifs <;> simp
  · intro e
    simp only [Subscription.ChangeEndTime]
    split_ifs <;> simp
  · intro o
    simp only [Subscription.ChangeOwner]
    split_ifs <;> simp
  · intro p
    simp only [Subscription.ChangePrice]
    split_ifs <;> simp

/-- C6, at a concrete input: a negative price is refused and nothing changes. -/
theorem mutators_fail_without_mutation_witness :
    (Subscription.ChangePrice
        { ID := 7, ServiceName := "Netflix", PriceRUB := 500, StartedAt := ⟨50, 0⟩,
          CompletedAt := some ⟨60, 0⟩, Owner := 3 } (-1)).1
      = { ID := 7, ServiceName := "Netflix", PriceRUB := 500, StartedAt := ⟨50, 0⟩,
          CompletedAt := some ⟨60, 0⟩, Owner := 3 } :=
  (mutators_fail_without_mutation
      { ID := 7, ServiceName := "Netflix", PriceRUB := 500, StartedAt := ⟨50, 0⟩,
        CompletedAt := some ⟨60, 0⟩, Owner := 3 }).2.2.2.2 (-1) (by decide)

/-! ## The application service -/

/-- Once the entity is loaded, `UpdateExistingSubscription` is a chain of five
tests on the arguments followed by the `Update` call on the rebuilt entity. -/
theorem UpdateExistingSubscription_steps {σ : Type} (st : SubscriptionsStorage σ) (now : Time)
    (db db1 : σ) (u : UpdateExistingSubscriptionArgs) (s : Subscription)
    (hf : st.FindByID db u.SubscriptionID = (db1, .ok s)) :
    UpdateExistingSubscription st now db u =
      if u.UserID = uuid.Nil then
        ⟨db1, [Call.FindByID u.SubscriptionID],
          .error (NewInvalidInputError "can not update subscription: user id was not provided")⟩
      else if now.Before u.StartTime then
        ⟨db1, [Call.FindByID u.SubscriptionID],
          .error (NewInvalidInputError "can not update subscription: date has not come yet")⟩
      else if (match u.EndTime with
               | some e => e.Before u.StartTime
               | none => false) then
        ⟨db1, [Call.FindByID u.SubscriptionID],
          .error (NewInvalidInputError
            "can not update subscription: start time must be less than end time")⟩
      else if u.PriceRUB < 0 then
        ⟨db1, [Call.FindByID u.SubscriptionID],
          .error (NewInvalidInputError "can not update subscription: invalid subscription price")⟩
      else if u.Service = "" then
        ⟨db1, [Call.FindByID u.SubscriptionID],
          .error (NewInvalidInputError
            "can not update subscription: subscribed service is not provided")⟩
      else
        let sub : Subscription :=
          { ID := s.ID, ServiceName := u.Service, PriceRUB := u.PriceRUB,
            StartedAt := u.StartTime.UTC, CompletedAt := u.EndTime.map Time.UTC,
            Owner := u.UserID }
        match st.Update db1 sub with
        | (db2, some _) =>
          ⟨db2, [Call.FindByID u.SubscriptionID, Call.Update sub],
            .error (NewInternalError "failed to update subscription")⟩
        | (db2, none) => ⟨db2, [Call.FindByID u.SubscriptionID, Call.Update sub], .ok sub⟩ := by
  simp only [UpdateExistingSubscription, hf]
  by_cases h1 : u.UserID = uuid.Nil
  · simp [Subscription.ChangeOwner, h1]
  · by_cases h2 : now.Before u.StartTime = true
    · simp [Subscription.ChangeOwner, h1, Subscription.ResetEndTime,
        Subscription.ChangeStartTime, Time.Before_UTC, h2]
    · cases he : u.EndTime with
      | none =>
        by_cases h4 : u.PriceRUB < 0
        · simp [Subscription.ChangeOwner, h1, Subscription.ResetEndTime,
            Subscription.ChangeStartTime, Time.Before_UTC, h2, Subscription.ChangePrice, h4]
        · by_cases h5 : u.Service = ""
          · simp [Subscription.ChangeOwner, h1, Subscription.ResetEndTime,
              Subscription.ChangeStartTime, Time.Before_UTC, h2, Subscription.ChangePrice, h4,
              Subscription.ChangeServiceName, h5]
          · simp [Subscription.ChangeOwner, h1, Subscription.ResetEndTime,
              Subscription.ChangeStartTime, Time.Before_UTC, h2, Subscription.ChangePrice, h4,
              Subscription.ChangeServiceName, h5]
      | some e =>
        by_cases h3 : e.Before u.StartTime = true
        · simp [Subscription.ChangeOwner, h1, Subscription.ResetEndTime,
            Subscription.ChangeStartTime, Time.Before_UTC, h2, Subscription.ChangeEndTime,
            Time.After_iff, h3]
        · by_cases h4 : u.PriceRUB < 0
          · simp [Subscription.ChangeOwner, h1, Subscription.ResetEndTime,
              Subscription.ChangeStartTime, Time.Before_UTC, h2, Subscription.ChangeEndTime,
              Time.After_iff, h3, Subscription.ChangePrice, h4]
          · by_cases h5 : u.Service = ""
            · simp [Subscription.ChangeOwner, h1, Subscription.ResetEndTime,
                Subscription.ChangeStartTime, Time.Before_UTC, h2, Subscription.ChangeEndTime,
                Time.After_iff, h3, Subscription.ChangePrice, h4,
                Subscription.ChangeServiceName, h5]
            · simp [Subscription.ChangeOwner, h1, Subscription.ResetEndTime,
                Subscription.ChangeStartTime, Time.Before_UTC, h2, Subscription.ChangeEndTime,
                Time.After_iff, h3, Subscription.ChangePrice, h4,
                Subscription.ChangeServiceName, h5]

/-- C7. `UpdateExistingSubscription` is a full replace. Whenever it succeeds and
returns `e`, the repository had returned some stored entity `s` for the id, and
`e` has the id of `s`, the owner, service name and price of the arguments, the
start time of the arguments (same instant, in UTC) and the end time of the
arguments (same instant, in UTC) when one is supplied, no completion time when
it is omitted, whatever completion time `s` had. The storage calls made are
`FindByID` and then `Update` with this same `e`, and `IsCompleted` holds exactly
when an end time was supplied. -/
theorem UpdateExistingSubscription_full_replace {σ : Type} (st : SubscriptionsStorage σ)
    (now : Time) (db : σ) (u : UpdateExistingSubscriptionArgs) (e : Subscription)
    (h : (UpdateExistingSubscription st now db u).result = .ok e) :
    ∃ s, (st.FindByID db u.SubscriptionID).2 = .ok s ∧
      e = { ID := s.ID, Owner := u.UserID, ServiceName := u.Service, PriceRUB := u.PriceRUB,
            StartedAt := u.StartTime.UTC, CompletedAt := u.EndTime.map Time.UTC } ∧
      e.StartedAt.Equal u.StartTime = true ∧
      (∀ t, u.EndTime = some t → ∃ c, e.CompletedAt = some c ∧ c.Equal t = true) ∧
      (u.EndTime = none → e.CompletedAt = none) ∧
      e.IsCompleted = u.EndTime.isSome ∧
      (UpdateExistingSubscription st now db u).calls
        = [Call.FindByID u.SubscriptionID, Call.Update e] ∧
      (st.Update (st.FindByID db u.SubscriptionID).1 e).2 = none ∧
      (UpdateExistingSubscription st now db u).store
        = (st.Update (st.FindByID db u.SubscriptionID).1 e).1 := by
  rcases hf : st.FindByID db u.SubscriptionID with ⟨db1, r⟩
  cases r with
  | error err =>
    simp only [UpdateExistingSubscription, hf] at h
    split_ifs at h
  | ok s =>
    rw [UpdateExistingSubscription_steps st now db db1 u s hf] at h ⊢
    refine ⟨s, rfl, ?_⟩
    split_ifs at h ⊢
    simp only at h ⊢
    rcases hu : st.Update db1
      { ID := s.ID, ServiceName := u.Service, PriceRUB := u.PriceRUB,
        StartedAt := u.StartTime.UTC, CompletedAt := u.EndTime.map Time.UTC,
        Owner := u.UserID } with ⟨db2, r2⟩
    cases r2 with
    | some err2 => simp [hu] at h
    | none =>
      simp only [hu, Except.ok.injEq] at h ⊢
      subst h
      simp [hu, Time.Equal_UTC, Subscription.IsCompleted]
      cases u.EndTime <;> simp [Time.Equal_UTC]

/-- C7, at a concrete input: the stored row has start 10 and completion 20; the
update carries start 50 and end 60 (both in another location) at `now` = 100. -/
theorem UpdateExistingSubscription_full_replace_witness :
    ∃ s, ((postgresql.NewSubscriptionStorage postgresql.healthy).FindByID
        [{ id := 7, owner_id := 3, service_name := "Netflix", price := 500,
           is_deleted := false, start_time := ⟨10, 0⟩, end_time := some ⟨20, 0⟩ }] 7).2 = .ok s ∧
      ({ ID := 7, ServiceName := "Okko", PriceRUB := 300, StartedAt := ⟨50, 0⟩,
         CompletedAt := some ⟨60, 0⟩, Owner := 4 } : Subscription)
        = { ID := s.ID, Owner := 4, ServiceName := "Okko", PriceRUB := 300,
            StartedAt := ⟨50, 0⟩, CompletedAt := some ⟨60, 0⟩ } :=
  have h := UpdateExistingSubscription_full_replace
    (postgresql.NewSubscriptionStorage postgresql.healthy) ⟨100, 0⟩
    [{ id := 7, owner_id := 3, service_name := "Netflix", price := 500,
       is_deleted := false, start_time := ⟨10, 0⟩, end_time := some ⟨20, 0⟩ }]
    { SubscriptionID := 7, UserID := 4, Service := "Okko", StartTime := ⟨50, 2⟩,
      EndTime := some ⟨60, 2⟩, PriceRUB := 300 }
    { ID := 7, ServiceName := "Okko", PriceRUB := 300, StartedAt := ⟨50, 0⟩,
      CompletedAt := some ⟨60, 0⟩, Owner := 4 } (by decide)
  h.elim fun s hs => ⟨s, hs.1, hs.2.1⟩

/-- C8. Once the stored entity `s` is loaded, the failure of any step of the
update (`ChangeOwner`, then `ChangeStartTime` after `ResetEndTime`, then
`ChangeEndTime` when an end time is supplied, then `ChangePrice`, then
`ChangeServiceName`, each applied to the entity left by the steps before it)
makes `UpdateExistingSubscription` return an `InvalidInput` error carrying that
step's message; the only storage call made is `FindByID`, `Update` is not
called, and the store is the one `FindByID` left. -/
theorem UpdateExistingSubscription_aborts_on_failed_step {σ : Type}
    (st : SubscriptionsStorage σ) (now : Time) (db db1 : σ)
    (u : UpdateExistingSubscriptionArgs) (s : Subscription)
    (hf : st.FindByID db u.SubscriptionID = (db1, .ok s)) :
    let aborted := fun (msg : String) =>
      UpdateExistingSubscription st now db u
        = ⟨db1, [Call.FindByID u.SubscriptionID],
            .error { Code := ErrInvalidInput, Message := msg }⟩
    let s1 := (s.ChangeOwner u.UserID).1.ResetEndTime
    let s2 := (s1.ChangeStartTime now u.StartTime).1
    let s3 := match u.EndTime with
      | some e => (s2.ChangeEndTime e).1
      | none => s2
    let s4 := (s3.ChangePrice u.PriceRUB).1
    (∀ msg, (s.ChangeOwner u.UserID).2 = some msg → aborted msg) ∧
    (∀ msg, (s.ChangeOwner u.UserID).2 = none →
      (s1.ChangeStartTime now u.StartTime).2 = some msg → aborted msg) ∧
    (∀ e msg, (s.ChangeOwner u.UserID).2 = none →
      (s1.ChangeStartTime now u.StartTime).2 = none →
      u.EndTime = some e → (s2.ChangeEndTime e).2 = some msg → aborted msg) ∧
    (∀ msg, (s.ChangeOwner u.UserID).2 = none →
      (s1.ChangeStartTime now u.StartTime).2 = none →
      (∀ e, u.EndTime = some e → (s2.ChangeEndTime e).2 = none) →
      (s3.ChangePrice u.PriceRUB).2 = some msg → aborted msg) ∧
    (∀ msg, (s.ChangeOwner u.UserID).2 = none →
      (s1.ChangeStartTime now u.StartTime).2 = none →
      (∀ e, u.EndTime = some e → (s2.ChangeEndTime e).2 = none) →
      (s3.ChangePrice u.PriceRUB).2 = none →
      (s4.ChangeServiceName u.Service).2 = some msg → aborted msg) := by
  intro aborted s1 s2 s3 s4
  simp only [aborted, s1, s2, s3, s4, UpdateExistingSubscription, hf, NewInvalidInputError]
  rcases hco : s.ChangeOwner u.UserID with ⟨a1, b1⟩
  rcases hst : a1.ResetEndTime.ChangeStartTime now u.StartTime with ⟨a2, b2⟩
  refine ⟨?_, ?_, ?_, ?_, ?_⟩
  · intro msg h
    simp only at h
    subst h
    rfl
  · intro msg h h'
    simp only at h h'
    subst h
    subst h'
    simp only [hst]
  · intro e msg h h' he h''
    simp only at h h'
    subst h
    subst h'
    simp only [hst, he]
    rcases hce : a2.ChangeEndTime e with ⟨a3, b3⟩
    simp only [hce] at h''
    subst h''
    rfl
  · intro msg h h' he h''
    simp only at h h'
    subst h
    subst h'
    simp only [hst]
    cases hu : u.EndTime with
    | none =>
      simp only [hu] at h''
      rcases hcp : a2.ChangePrice u.PriceRUB with ⟨a4, b4⟩
      simp only [hcp] at h''
      subst h''
      simp only [hcp]
    | some e =>
      have he' := he e hu
      simp only [hu] at h''
      rcases hce : a2.ChangeEndTime e with ⟨a3, b3⟩
      simp only [hce] at he' h''
      subst he'
      rcases hcp : a3.ChangePrice u.PriceRUB with ⟨a4, b4⟩
      simp only [hcp] at h''
      subst h''
      simp only [hce, hcp]
  · intro msg h h' he h'' h3
    simp only at h h'
    subst h
    subst h'
    simp only [hst]
    cases hu : u.EndTime with
    | none =>
      simp only [hu] at h'' h3
      rcases hcp : a2.ChangePrice u.PriceRUB with ⟨a4, b4⟩
      simp only [hcp] at h'' h3
      subst h''
      rcases hcs : a4.ChangeServiceName u.Service with ⟨a5, b5⟩
      simp only [hcs] at h3
      subst h3
      simp only [hcp, hcs]
    | some e =>
      have he' := he e hu
      simp only [hu] at h'' h3
      rcases hce : a2.ChangeEndTime e with ⟨a3, b3⟩
      simp only [hce] at he' h'' h3
      subst he'
      rcases hcp : a3.ChangePrice u.PriceRUB with ⟨a4, b4⟩
      simp only [hcp] at h'' h3
      subst h''
      rcases hcs : a4.ChangeServiceName u.Service with ⟨a5, b5⟩
      simp only [hcs] at h3
      subst h3
      simp only [hce, hcp, hcs]

/-- C8, at a concrete input: the stored row is found, the first three steps
pass and `ChangePrice(-1)` fails; the table is left as it was. -/
theorem UpdateExistingSubscription_aborts_on_failed_step_witness :
    UpdateExistingSubscription (postgresql.NewSubscriptionStorage postgresql.healthy) ⟨100, 0⟩
        [{ id := 7, owner_id := 3, service_name := "Netflix", price := 500,
           is_deleted := false, start_time := ⟨10, 0⟩, end_time := some ⟨20, 0⟩ }]
        { SubscriptionID := 7, UserID := 4, Service := "Okko", StartTime := ⟨50, 2⟩,
          EndTime := some ⟨60, 2⟩, PriceRUB := -1 }
      = ⟨[{ id := 7, owner_id := 3, service_name := "Netflix", price := 500,
            is_deleted := false, start_time := ⟨10, 0⟩, end_time := some ⟨20, 0⟩ }],
         [Call.FindByID 7],
         .error { Code := ErrInvalidInput,
                  Message := "can not update subscription: invalid subscription price" }⟩ :=
  (UpdateExistingSubscription_aborts_on_failed_step
    (postgresql.NewSubscriptionStorage postgresql.healthy) ⟨100, 0⟩
    [{ id := 7, owner_id := 3, service_name := "Netflix", price := 500,
       is_deleted := false, start_time := ⟨10, 0⟩, end_time := some ⟨20, 0⟩ }]
    [{ id := 7, owner_id := 3, service_name := "Netflix", price := 500,
       is_deleted := false, start_time := ⟨10, 0⟩, end_time := some ⟨20, 0⟩ }]
    { SubscriptionID := 7, UserID := 4, Service := "Okko", StartTime := ⟨50, 2⟩,
      EndTime := some ⟨60, 2⟩, PriceRUB := -1 }
    { ID := 7, ServiceName := "Netflix", PriceRUB := 500, StartedAt := ⟨10, 0⟩,
      CompletedAt := some ⟨20, 0⟩, Owner := 3 } (by decide)).2.2.2.1
    "can not update subscription: invalid subscription price"
    (by decide) (by decide) (by decide) (by decide)

/-- C9. Classification of repository errors by the service. For
`FindSubscriptionByID`, the load step of `UpdateExistingSubscription` and
`RemoveExistingSubscription`: an error for which
`errors.Is(err, ErrSubscriptionNotFound)` holds gives a `ServiceError` with code
`NotFound`; any other error gives code `Internal` with a message fixed per
operation. A failure of `Add` in `CreateNewSubscription` and a failure of
`Update` in `UpdateExistingSubscription` give code `Internal` with a fixed
message, whatever the error is. -/
theorem service_error_classification {σ : Type} (st : SubscriptionsStorage σ) (db : σ) :
    (∀ id err, (st.FindByID db id).2 = .error err →
      (errors.Is err ErrSubscriptionNotFound = true →
        (FindSubscriptionByID st db id).result
          = .error { Code := ErrNotFound, Message := "subscription not found" }) ∧
      (errors.Is err ErrSubscriptionNotFound = false →
        (FindSubscriptionByID st db id).result
          = .error { Code := ErrInternal, Message := "failed to fetch subscription" })) ∧
    (∀ now u err, (st.FindByID db u.SubscriptionID).2 = .error err →
      (errors.Is err ErrSubscriptionNotFound = true →
        (UpdateExistingSubscription st now db u).result
          = .error { Code := ErrNotFound, Message := "subscription not found" }) ∧
      (errors.Is err ErrSubscriptionNotFound = false →
        (UpdateExistingSubscription st now db u).result
          = .error { Code := ErrInternal, Message := "failed to update subscription" })) ∧
    (∀ id err, (st.RemoveByID db id).2 = some err →
      (errors.Is err ErrSubscriptionNotFound = true →
        (RemoveExistingSubscription st db id).result
          = .error { Code := ErrNotFound, Message := "subscription not found" }) ∧
      (errors.Is err ErrSubscriptionNotFound = false →
        (RemoveExistingSubscription st db id).result
          = .error { Code := ErrInternal, Message := "failed to remove subscription" })) ∧
    (∀ now newV7 c sub err,
      NewSubscription now newV7 c.UserID c.PriceRUB c.Service c.StartTime c.EndTime = .ok sub →
      (st.Add db sub).2 = some err →
      (CreateNewSubscription st now newV7 db c).result
        = .error { Code := ErrInternal, Message := "failed to create subscription" }) ∧
    (∀ now u e err, Call.Update e ∈ (UpdateExistingSubscription st now db u).calls →
      (st.Update (st.FindByID db u.SubscriptionID).1 e).2 = some err →
      (UpdateExistingSubscription st now db u).result
        = .error { Code := ErrInternal, Message := "failed to update subscription" }) := by
  refine ⟨?_, ?_, ?_, ?_, ?_⟩
  · intro id err h
    rcases hf : st.FindByID db id with ⟨db1, r⟩
    simp only [hf] at h
    subst h
    constructor <;> intro hi <;> simp [FindSubscriptionByID, hf, hi, NewNotFoundError,
      NewInternalError]
  · intro now u err h
    rcases hf : st.FindByID db u.SubscriptionID with ⟨db1, r⟩
    simp only [hf] at h
    subst h
    constructor <;> intro hi <;> simp [UpdateExistingSubscription, hf, hi, NewNotFoundError,
      NewInternalError]
  · intro id err h
    rcases hf : st.RemoveByID db id with ⟨db1, r⟩
    simp only [hf] at h
    subst h
    constructor <;> intro hi <;> simp [RemoveExistingSubscription, hf, hi, NewNotFoundError,
      NewInternalError]
  · intro now newV7 c sub err hn h
    rcases hf : st.Add db sub with ⟨db1, r⟩
    simp only [hf] at h
    subst h
    simp [CreateNewSubscription, hn, hf, NewInternalError]
  · intro now u e err hmem h
    rcases hf : st.FindByID db u.SubscriptionID with ⟨db1, r⟩
    cases r with
    | error err0 =>
      simp only [UpdateExistingSubscription, hf] at hmem
      split_ifs at hmem <;> simp at hmem
    | ok s =>
      rw [UpdateExistingSubscription_steps st now db db1 u s hf] at hmem ⊢
      simp only [hf] at h
      split_ifs at hmem ⊢ <;> try (simp at hmem; done)
      simp only at hmem ⊢
      rcases hu : st.Update db1
        { ID := s.ID, ServiceName := u.Service, PriceRUB := u.PriceRUB,
          StartedAt := u.StartTime.UTC, CompletedAt := u.EndTime.map Time.UTC,
          Owner := u.UserID } with ⟨db2, r2⟩
      cases r2 with
      | some err2 => simp [NewInternalError]
      | none =>
        simp only [hu, List.mem_cons, List.mem_singleton, Call.Update.injEq, false_or] at hmem
        simp at hmem
        subst hmem
        simp [hu] at h

/-- C9, at a concrete input: on an empty table the SQL repository returns the
sentinel, and `FindSubscriptionByID` answers `NotFound`. -/
theorem service_error_classification_witness :
    (FindSubscriptionByID (postgresql.NewSubscriptionStorage postgresql.healthy) [] 7).result
      = .error { Code := ErrNotFound, Message := "subscription not found" } :=
  ((service_error_classification (postgresql.NewSubscriptionStorage postgresql.healthy) []).1
    7 ErrSubscriptionNotFound (by decide)).1 (by decide)

/-! ## The SQL repository -/

/-- With a database none of whose calls fails, `RemoveByID` returns nil for every
table and every id, whether or not a row is marked. -/
theorem postgresql.RemoveByID_healthy_returns_nil (tbl : List postgresql.Row)
    (id : SubscriptionID) : (postgresql.RemoveByID postgresql.healthy tbl id).2 = none := by
  simp [postgresql.RemoveByID, postgresql.healthy]

/-- C10, on the code. With a database none of whose calls fails,
`RemoveExistingSubscription` returns nil (not `NotFound`) for an id that was
never stored; after a successful removal of a stored row, a second removal of
the same id returns nil again, although `FindSubscriptionByID` then answers
`NotFound` for it. -/
theorem RemoveExistingSubscription_absent_id_returns_nil :
    (RemoveExistingSubscription (postgresql.NewSubscriptionStorage postgresql.healthy) [] 7).result
      = .ok () ∧
    (RemoveExistingSubscription (postgresql.NewSubscriptionStorage postgresql.healthy)
        [{ id := 7, owner_id := 3, service_name := "Netflix", price := 500,
           is_deleted := false, start_time := ⟨10, 0⟩, end_time := none }] 7).result = .ok () ∧
    (RemoveExistingSubscription (postgresql.NewSubscriptionStorage postgresql.healthy)
        [{ id := 7, owner_id := 3, service_name := "Netflix", price := 500,
           is_deleted := false, start_time := ⟨10, 0⟩, end_time := none }] 7).store
      = [{ id := 7, owner_id := 3, service_name := "Netflix", price := 500,
           is_deleted := true, start_time := ⟨10, 0⟩, end_time := none }] ∧
    (RemoveExistingSubscription (postgresql.NewSubscriptionStorage postgresql.healthy)
        [{ id := 7, owner_id := 3, service_name := "Netflix", price := 500,
           is_deleted := true, start_time := ⟨10, 0⟩, end_time := none }] 7).result = .ok () ∧
    (FindSubscriptionByID (postgresql.NewSubscriptionStorage postgresql.healthy)
        [{ id := 7, owner_id := 3, service_name := "Netflix", price := 500,
           is_deleted := true, start_time := ⟨10, 0⟩, end_time := none }] 7).result
      = .error { Code := ErrNotFound, Message := "subscription not found" } := by
  decide

/-! ## The total-cost aggregation -/

/-- Wrapping an `int64` sum step by step gives the wrapped total. -/
theorem wrapInt64_add_left (a b : Int) : wrapInt64 (wrapInt64 a + b) = wrapInt64 (a + b) := by
  unfold wrapInt64
  omega

/-- A value inside the `int64` range is not changed by wrapping. -/
theorem wrapInt64_of_range (x : Int) (h1 : -9223372036854775808 ≤ x)
    (h2 : x < 9223372036854775808) : wrapInt64 x = x := by
  unfold wrapInt64
  omega

/-- The accumulator loop of the total cost, started at a wrapped value, ends at
the wrapped sum. -/
theorem foldl_wrapInt64_prices (subs : List Subscription) (a : Int) :
    subs.foldl (fun total sub => wrapInt64 (total + sub.PriceRUB)) (wrapInt64 a)
      = wrapInt64 (a + (subs.map (fun sub => sub.PriceRUB)).sum) := by
  induction subs generalizing a with
  | nil => simp
  | cons s rest ih =>
    simp only [List.foldl_cons, List.map_cons, List.sum_cons]
    rw [wrapInt64_add_left, ih, add_assoc]

/-- C11. `CalculateTotalSubscriptionsPrice` returns an `InvalidInput` error
exactly when the user id is `uuid.Nil`, or the service name is empty, or both
bounds are given and the end is not after the start. In that case no storage
call is made and the store is untouched. An end equal to the start is rejected;
with one bound or none the window is not checked (the condition then only
depends on the user id and the service name). -/
theorem CalculateTotalSubscriptionsPrice_invalid_input_iff {σ : Type}
    (st : SubscriptionsStorage σ) (db : σ) (userID : PersonID) (serviceName : ServiceName)
    (startTime endTime : Option Time) :
    ((∃ msg, (CalculateTotalSubscriptionsPrice st db userID serviceName startTime endTime).result
        = .error { Code := ErrInvalidInput, Message := msg }) ↔
      (userID = uuid.Nil ∨ serviceName = "" ∨
        ∃ s e, startTime = some s ∧ endTime = some e ∧ e.After s = false)) ∧
    ((userID = uuid.Nil ∨ serviceName = "" ∨
        ∃ s e, startTime = some s ∧ endTime = some e ∧ e.After s = false) →
      (CalculateTotalSubscriptionsPrice st db userID serviceName startTime endTime).calls = [] ∧
      (CalculateTotalSubscriptionsPrice st db userID serviceName startTime endTime).store = db) ∧
    (∀ t, userID ≠ uuid.Nil → serviceName ≠ "" →
      (CalculateTotalSubscriptionsPrice st db userID serviceName (some t) (some t)).result
        = .error { Code := ErrInvalidInput, Message := "end time must be after start time" }) ∧
    ((startTime = none ∨ endTime = none) →
      ((∃ msg, (CalculateTotalSubscriptionsPrice st db userID serviceName startTime
          endTime).result = .error { Code := ErrInvalidInput, Message := msg }) ↔
        (userID = uuid.Nil ∨ serviceName = ""))) := by
  have hcode : ErrInternal ≠ ErrInvalidInput := by decide
  have key : (∃ msg, (CalculateTotalSubscriptionsPrice st db userID serviceName startTime
        endTime).result = .error { Code := ErrInvalidInput, Message := msg }) ↔
      (userID = uuid.Nil ∨ serviceName = "" ∨
        ∃ s e, startTime = some s ∧ endTime = some e ∧ e.After s = false) := by
    unfold CalculateTotalSubscriptionsPrice
    by_cases h1 : userID = uuid.Nil
    · simp [h1, NewInvalidInputError]
    · by_cases h2 : serviceName = ""
      · simp [h1, h2, NewInvalidInputError]
      · rcases hfind : st.Find db ⟨serviceName, userID, startTime, endTime⟩ with ⟨db1, r⟩
        cases startTime <;> cases endTime <;> cases r <;>
          simp [h1, h2, hfind, NewInvalidInputError, NewInternalError, hcode] <;>
          split_ifs <;> simp_all [NewInvalidInputError]
  refine ⟨key, ?_, ?_, ?_⟩
  · intro h
    unfold CalculateTotalSubscriptionsPrice
    rcases h with h | h | ⟨s, e, hs, he, hse⟩
    · simp [h]
    · by_cases h1 : userID = uuid.Nil <;> simp [h1, h]
    · by_cases h1 : userID = uuid.Nil <;> by_cases h2 : serviceName = "" <;>
        simp [h1, h2, hs, he, hse]
  · intro t h1 h2
    have h3 : t.After t = false := by simp [Time.After]
    simp [CalculateTotalSubscriptionsPrice, h1, h2, h3, NewInvalidInputError]
  · intro h
    rw [key]
    rcases h with h | h <;> simp [h]

/-- C11, at a concrete input: a window whose end equals its start is rejected. -/
theorem CalculateTotalSubscriptionsPrice_invalid_input_iff_witness :
    (CalculateTotalSubscriptionsPrice (postgresql.NewSubscriptionStorage postgresql.healthy) []
        3 "X" (some ⟨5, 0⟩) (some ⟨5, 0⟩)).result
      = .error { Code := ErrInvalidInput, Message := "end time must be after start time" } :=
  (CalculateTotalSubscriptionsPrice_invalid_input_iff
    (postgresql.NewSubscriptionStorage postgresql.healthy) [] 3 "X" (some ⟨5, 0⟩)
    (some ⟨5, 0⟩)).2.2.1 ⟨5, 0⟩ (by decide) (by decide)

/-- C12, as stated, fails: two stored subscriptions of owner 3 and service "X",
each with the valid price 2^62, have the exact sum 2^63, and the total returned
is -2^63. -/
theorem CalculateTotalSubscriptionsPrice_overflow :
    (NewSubscription ⟨100, 0⟩ (.ok 1) 3 4611686018427387904 "X" ⟨1, 0⟩ none).toOption.isSome
      = true ∧
    (CalculateTotalSubscriptionsPrice (postgresql.NewSubscriptionStorage postgresql.healthy)
        [{ id := 1, owner_id := 3, service_name := "X", price := 4611686018427387904,
           is_deleted := false, start_time := ⟨1, 0⟩, end_time := none },
         { id := 2, owner_id := 3, service_name := "X", price := 4611686018427387904,
           is_deleted := false, start_time := ⟨1, 0⟩, end_time := none }]
        3 "X" none none).result
      = .ok { TotalPriceRUB := -9223372036854775808 } ∧
    (4611686018427387904 + 4611686018427387904 : Int) ≠ -9223372036854775808 := by
  decide

/-- C12, amended. For a valid request, when the repository `Find` returns the
list `subs` for the filter (owner, service, start, end), the total returned is
the sum of the prices reduced to an `int64` by two's complement wrap-around; it
is the exact integer sum whenever that sum lies in `[-2^63, 2^63)`, and 0 for
the empty list. -/
theorem CalculateTotalSubscriptionsPrice_total {σ : Type} (st : SubscriptionsStorage σ)
    (db db1 : σ) (userID : PersonID) (serviceName : ServiceName)
    (startTime endTime : Option Time) (subs : List Subscription)
    (huser : userID ≠ uuid.Nil) (hname : serviceName ≠ "")
    (hwindow : ∀ s e, startTime = some s → endTime = some e → e.After s = true)
    (hfind : st.Find db
      { ServiceName := serviceName, OwnerID := userID, StartTime := startTime,
        EndTime := endTime } = (db1, .ok subs)) :
    (CalculateTotalSubscriptionsPrice st db userID serviceName startTime endTime).result
        = .ok { TotalPriceRUB := wrapInt64 ((subs.map (fun sub => sub.PriceRUB)).sum) } ∧
    (-9223372036854775808 ≤ (subs.map (fun sub => sub.PriceRUB)).sum →
      (subs.map (fun sub => sub.PriceRUB)).sum < 9223372036854775808 →
      (CalculateTotalSubscriptionsPrice st db userID serviceName startTime endTime).result
        = .ok { TotalPriceRUB := (subs.map (fun sub => sub.PriceRUB)).sum }) ∧
    (subs = [] →
      (CalculateTotalSubscriptionsPrice st db userID serviceName startTime endTime).result
        = .ok { TotalPriceRUB := 0 }) := by
  have h0 : (0 : Int) = wrapInt64 0 := by decide
  have key : (CalculateTotalSubscriptionsPrice st db userID serviceName startTime
      endTime).result
        = .ok { TotalPriceRUB := wrapInt64 ((subs.map (fun sub => sub.PriceRUB)).sum) } := by
    have hsum := foldl_wrapInt64_prices subs 0
    rw [← h0, zero_add] at hsum
    cases startTime with
    | none => simp [CalculateTotalSubscriptionsPrice, huser, hname, hfind, hsum]
    | some s =>
      cases endTime with
      | none => simp [CalculateTotalSubscriptionsPrice, huser, hname, hfind, hsum]
      | some e =>
        simp [CalculateTotalSubscriptionsPrice, huser, hname, hfind, hsum,
          hwindow s e rfl rfl]
  refine ⟨key, ?_, ?_⟩
  · intro h1 h2
    rw [key, wrapInt64_of_range _ h1 h2]
  · intro h
    subst h
    rw [key]
    simp [← h0]

/-- C12 amended, at a concrete input: prices 100 and 200 give 300. -/
theorem CalculateTotalSubscriptionsPrice_total_witness :
    (CalculateTotalSubscriptionsPrice (postgresql.NewSubscriptionStorage postgresql.healthy)
        [{ id := 1, owner_id := 3, service_name := "X", price := 100,
           is_deleted := false, start_time := ⟨1, 0⟩, end_time := none },
         { id := 2, owner_id := 3, service_name := "X", price := 200,
           is_deleted := false, start_time := ⟨1, 0⟩, end_time := none }]
        3 "X" none none).result = .ok { TotalPriceRUB := 300 } :=
  (CalculateTotalSubscriptionsPrice_total (postgresql.NewSubscriptionStorage postgresql.healthy)
    [{ id := 1, owner_id := 3, service_name := "X", price := 100,
       is_deleted := false, start_time := ⟨1, 0⟩, end_time := none },
     { id := 2, owner_id := 3, service_name := "X", price := 200,
       is_deleted := false, start_time := ⟨1, 0⟩, end_time := none }]
    [{ id := 1, owner_id := 3, service_name := "X", price := 100,
       is_deleted := false, start_time := ⟨1, 0⟩, end_time := none },
     { id := 2, owner_id := 3, service_name := "X", price := 200,
       is_deleted := false, start_time := ⟨1, 0⟩, end_time := none }]
    3 "X" none none
    [{ ID := 1, ServiceName := "X", PriceRUB := 100, StartedAt := ⟨1, 0⟩,
       CompletedAt := none, Owner := 3 },
     { ID := 2, ServiceName := "X", PriceRUB := 200, StartedAt := ⟨1, 0⟩,
       CompletedAt := none, Owner := 3 }]
    (by decide) (by decide) (by simp) (by decide)).2.1 (by decide) (by decide)

/-! ## The transport error mapping -/

/-- C13. `handleServiceError` returns nil for a nil error; for a `ServiceError`
with code `InvalidInput` an HTTP error 400 carrying the service message; for
code `NotFound` an HTTP error 404 carrying the service message; for a
`ServiceError` with any other code (`Internal` included) and for an error that
is not a `ServiceError`, an HTTP error 500 whose body is the fixed text
"internal server error", whatever the message of the error was. -/
theorem handleServiceError_mapping :
    api.handleServiceError none = none ∧
    (∀ msg, api.handleServiceError (some (.ServiceError { Code := ErrInvalidInput, Message := msg }))
      = some { Code := 400, Message := { Error := msg } }) ∧
    (∀ msg, api.handleServiceError (some (.ServiceError { Code := ErrNotFound, Message := msg }))
      = some { Code := 404, Message := { Error := msg } }) ∧
    (∀ msg, api.handleServiceError (some (.ServiceError { Code := ErrInternal, Message := msg }))
      = some { Code := 500, Message := { Error := "internal server error" } }) ∧
    (∀ code msg, code ≠ ErrInvalidInput → code ≠ ErrNotFound →
      api.handleServiceError (some (.ServiceError { Code := code, Message := msg }))
        = some { Code := 500, Message := { Error := "internal server error" } }) ∧
    (∀ e, api.handleServiceError (some (.other e))
      = some { Code := 500, Message := { Error := "internal server error" } }) := by
  refine ⟨rfl, ?_, ?_, ?_, ?_, ?_⟩
  · intro msg
    simp [api.handleServiceError, api.StatusBadRequest]
  · intro msg
    have h : ErrNotFound ≠ ErrInvalidInput := by decide
    simp [api.handleServiceError, api.StatusNotFound, h]
  · intro msg
    have h1 : ErrInternal ≠ ErrInvalidInput := by decide
    have h2 : ErrInternal ≠ ErrNotFound := by decide
    simp [api.handleServiceError, api.StatusInternalServerError, h1, h2]
  · intro code msg h1 h2
    simp [api.handleServiceError, api.StatusInternalServerError, h1, h2]
  · intro e
    simp [api.handleServiceError, api.StatusInternalServerError]

/-- C13, at a concrete input: a `ServiceError` with an unknown code and a
message that must stay internal. -/
theorem handleServiceError_mapping_witness :
    api.handleServiceError
        (some (.ServiceError { Code := "conflict", Message := "pq: password rejected" }))
      = some { Code := 500, Message := { Error := "internal server error" } } :=
  handleServiceError_mapping.2.2.2.2.1 "conflict" "pq: password rejected" (by decide) (by decide)

/-! ## `ChangeStartTime`, the frame of the mutators -/

/-- C15. `ChangeStartTime(t)` returns an error exactly when the completion time
is set and is before `t`, or `t` is after `now`. When the completion time is set
and before `t` the error is "start time must be less than end time", also when
`t` is after `now` as well. On success `StartedAt` becomes `t` (same instant, in
UTC) and nothing else changes. A start time equal to the completion time, and a
start time equal to `now`, are accepted when the other condition allows it. -/
theorem ChangeStartTime_fails_iff (now : Time) (s : Subscription) (t : Time) :
    ((s.ChangeStartTime now t).2 ≠ none ↔
      ((∃ c, s.CompletedAt = some c ∧ c.Before t = true) ∨ t.After now = true)) ∧
    ((∃ c, s.CompletedAt = some c ∧ c.Before t = true) →
      s.ChangeStartTime now t
        = (s, some "can not update subscription: start time must be less than end time")) ∧
    ((∀ c, s.CompletedAt = some c → c.Before t = false) → t.After now = true →
      s.ChangeStartTime now t
        = (s, some "can not update subscription: date has not come yet")) ∧
    ((s.ChangeStartTime now t).2 = none →
      (s.ChangeStartTime now t).1 = { s with StartedAt := t.UTC } ∧
      (s.ChangeStartTime now t).1.StartedAt.Equal t = true) ∧
    (s.CompletedAt = some t → t.After now = false → (s.ChangeStartTime now t).2 = none) ∧
    ((∀ c, s.CompletedAt = some c → c.Before now = false) →
      (s.ChangeStartTime now now).2 = none) := by
  have hself : ∀ x : Time, x.Before x = false := by
    intro x
    simp [Time.Before]
  cases hc : s.CompletedAt with
  | none =>
    simp only [Subscription.ChangeStartTime, hc, Time.Before_UTC, Time.After_iff]
    refine ⟨?_, ?_, ?_, ?_, ?_, ?_⟩
    · split_ifs <;> simp_all
    · simp
    · intro _ h
      simp [h]
    · split_ifs <;> simp [Time.Equal_UTC]
    · simp
    · simp [hself]
  | some c =>
    have hafter : ∀ x : Time, c.Before x.UTC = c.Before x := fun _ => rfl
    simp only [Subscription.ChangeStartTime, hc, Time.Before_UTC, Time.After_iff, hafter]
    refine ⟨?_, ?_, ?_, ?_, ?_, ?_⟩
    · split_ifs <;> simp_all
    · rintro ⟨c', hc', h⟩
      simp only [Option.some.injEq] at hc'
      subst hc'
      simp [h]
    · intro h1 h2
      simp [h1 c rfl, h2]
    · split_ifs <;> simp [Time.Equal_UTC]
    · intro h1 h2
      simp only [Option.some.injEq] at h1
      subst h1
      simp [hself, h2]
    · intro h
      simp [h c rfl, hself]

/-- C15, at a concrete input: completion at 60, new start 70 while `now` is 65;
both conditions hold and the end-time message is returned. -/
theorem ChangeStartTime_fails_iff_witness :
    Subscription.ChangeStartTime ⟨65, 0⟩
        { ID := 7, ServiceName := "Netflix", PriceRUB := 500, StartedAt := ⟨50, 0⟩,
          CompletedAt := some ⟨60, 0⟩, Owner := 3 } ⟨70, 0⟩
      = ({ ID := 7, ServiceName := "Netflix", PriceRUB := 500, StartedAt := ⟨50, 0⟩,
           CompletedAt := some ⟨60, 0⟩, Owner := 3 },
         some "can not update subscription: start time must be less than end time") :=
  (ChangeStartTime_fails_iff ⟨65, 0⟩
    { ID := 7, ServiceName := "Netflix", PriceRUB := 500, StartedAt := ⟨50, 0⟩,
      CompletedAt := some ⟨60, 0⟩, Owner := 3 } ⟨70, 0⟩).2.1 ⟨⟨60, 0⟩, rfl, by decide⟩

/-- C19. Each mutator changes at most its own field, and never the id:
`ChangeServiceName` at most `ServiceName`, `ChangeStartTime` at most
`StartedAt`, `ChangeEndTime` and `ResetEndTime` at most `CompletedAt`,
`ChangeOwner` at most `Owner`, `ChangePrice` at most `PriceRUB`, whether the
call succeeds or fails. -/
theorem mutators_frame (s : Subscription) :
    (∀ srvName, (s.ChangeServiceName srvName).1
      = { s with ServiceName := (s.ChangeServiceName srvName).1.ServiceName }) ∧
    (∀ now startTime, (s.ChangeStartTime now startTime).1
      = { s with StartedAt := (s.ChangeStartTime now startTime).1.StartedAt }) ∧
    (∀ endTime, (s.ChangeEndTime endTime).1
      = { s with CompletedAt := (s.ChangeEndTime endTime).1.CompletedAt }) ∧
    s.ResetEndTime = { s with CompletedAt := s.ResetEndTime.CompletedAt } ∧
    (∀ owner, (s.ChangeOwner owner).1 = { s with Owner := (s.ChangeOwner owner).1.Owner }) ∧
    (∀ price, (s.ChangePrice price).1
      = { s with PriceRUB := (s.ChangePrice price).1.PriceRUB }) ∧
    (∀ m : Mutation, (Mutation.call s m).1.ID = s.ID) ∧
    (∀ ms : List Mutation, (Mutation.callAll s ms).ID = s.ID) := by
  have hone : ∀ (x : Subscription) (m : Mutation), (Mutation.call x m).1.ID = x.ID := by
    intro x m
    cases m <;>
      simp only [Mutation.call, Subscription.ChangeServiceName, Subscription.ResetEndTime,
        Subscription.ChangeStartTime, Subscription.ChangeEndTime, Subscription.ChangeOwner,
        Subscription.ChangePrice] <;>
      split_ifs <;> rfl
  refine ⟨?_, ?_, ?_, rfl, ?_, ?_, hone s, ?_⟩
  · intro n
    simp only [Subscription.ChangeServiceName]
    split_ifs <;> rfl
  · intro now t
    simp only [Subscription.ChangeStartTime]
    split_ifs <;> rfl
  · intro e
    simp only [Subscription.ChangeEndTime]
    split_ifs <;> rfl
  · intro o
    simp only [Subscription.ChangeOwner]
    split_ifs <;> rfl
  · intro p
    simp only [Subscription.ChangePrice]
    split_ifs <;> rfl
  · intro ms
    induction ms generalizing s with
    | nil => rfl
    | cons m rest ih =>
      simp only [Mutation.callAll, List.foldl_cons]
      exact (ih (Mutation.call s m).1).trans (hone s m)

/-! ## The update does not read the stored fields -/

/-- C20. Let two stores return, for the id of the update, the entities `s1` and
`s2` with the same id and any other fields. With the same arguments and the
same clock, either both updates stop with the same `InvalidInput` message after
`FindByID`, or both reach `Update` with one and the same entity `e`, which is
also what each returns when its `Update` call succeeds. The stored owner, name,
price, start time and completion time play no part. -/
theorem UpdateExistingSubscription_ignores_stored_fields {σ₁ σ₂ : Type}
    (st1 : SubscriptionsStorage σ₁) (st2 : SubscriptionsStorage σ₂) (now : Time)
    (db1 d1 : σ₁) (db2 d2 : σ₂) (u : UpdateExistingSubscriptionArgs)
    (s1 s2 : Subscription)
    (hf1 : st1.FindByID db1 u.SubscriptionID = (d1, .ok s1))
    (hf2 : st2.FindByID db2 u.SubscriptionID = (d2, .ok s2))
    (hid : s1.ID = s2.ID) :
    (∃ msg,
      UpdateExistingSubscription st1 now db1 u
        = ⟨d1, [Call.FindByID u.SubscriptionID],
            .error { Code := ErrInvalidInput, Message := msg }⟩ ∧
      UpdateExistingSubscription st2 now db2 u
        = ⟨d2, [Call.FindByID u.SubscriptionID],
            .error { Code := ErrInvalidInput, Message := msg }⟩) ∨
    (∃ e,
      (UpdateExistingSubscription st1 now db1 u).calls
        = [Call.FindByID u.SubscriptionID, Call.Update e] ∧
      (UpdateExistingSubscription st2 now db2 u).calls
        = [Call.FindByID u.SubscriptionID, Call.Update e] ∧
      ((st1.Update d1 e).2 = none → (UpdateExistingSubscription st1 now db1 u).result = .ok e) ∧
      ((st2.Update d2 e).2 = none →
        (UpdateExistingSubscription st2 now db2 u).result = .ok e)) := by
  rw [UpdateExistingSubscription_steps st1 now db1 d1 u s1 hf1,
    UpdateExistingSubscription_steps st2 now db2 d2 u s2 hf2, hid]
  by_cases h1 : u.UserID = uuid.Nil
  · exact Or.inl ⟨"can not update subscription: user id was not provided",
            by simp [h1, NewInvalidInputError]⟩
  · by_cases h2 : now.Before u.StartTime = true
    · exact Or.inl ⟨"can not update subscription: date has not come yet",
            by simp [h1, h2, NewInvalidInputError]⟩
    · by_cases h3 : (match u.EndTime with
                     | some e => e.Before u.StartTime
                     | none => false) = true
      · exact Or.inl ⟨"can not update subscription: start time must be less than end time",
            by simp [h1, h2, h3, NewInvalidInputError]⟩
      · by_cases h4 : u.PriceRUB < 0
        · exact Or.inl ⟨"can not update subscription: invalid subscription price",
            by simp [h1, h2, h3, h4, NewInvalidInputError]⟩
        · by_cases h5 : u.Service = ""
          · exact Or.inl ⟨"can not update subscription: subscribed service is not provided",
            by simp [h1, h2, h3, h4, h5, NewInvalidInputError]⟩
          · refine Or.inr ⟨{ ID := s2.ID, ServiceName := u.Service, PriceRUB := u.PriceRUB,
                             StartedAt := u.StartTime.UTC,
                             CompletedAt := u.EndTime.map Time.UTC, Owner := u.UserID }, ?_⟩
            simp only [h1, h2, h3, h4, h5, if_false]
            rcases hu1 : st1.Update d1
              { ID := s2.ID, ServiceName := u.Service, PriceRUB := u.PriceRUB,
                StartedAt := u.StartTime.UTC, CompletedAt := u.EndTime.map Time.UTC,
                Owner := u.UserID } with ⟨a1, r1⟩
            rcases hu2 : st2.Update d2
              { ID := s2.ID, ServiceName := u.Service, PriceRUB := u.PriceRUB,
                StartedAt := u.StartTime.UTC, CompletedAt := u.EndTime.map Time.UTC,
                Owner := u.UserID } with ⟨a2, r2⟩
            cases r1 <;> cases r2 <;> simp

/-- C20, at a concrete input: two tables hold row 7 with different fields (one
completed at 20, one not completed); the same update is applied to both. -/
theorem UpdateExistingSubscription_ignores_stored_fields_witness :
    (∃ msg,
      UpdateExistingSubscription (postgresql.NewSubscriptionStorage postgresql.healthy) ⟨100, 0⟩
          [{ id := 7, owner_id := 3, service_name := "Netflix", price := 500,
             is_deleted := false, start_time := ⟨10, 0⟩, end_time := some ⟨20, 0⟩ }]
          { SubscriptionID := 7, UserID := 4, Service := "Okko", StartTime := ⟨50, 2⟩,
            EndTime := none, PriceRUB := 300 }
        = ⟨[{ id := 7, owner_id := 3, service_name := "Netflix", price := 500,
              is_deleted := false, start_time := ⟨10, 0⟩, end_time := some ⟨20, 0⟩ }],
            [Call.FindByID 7], .error { Code := ErrInvalidInput, Message := msg }⟩ ∧
      UpdateExistingSubscription (postgresql.NewSubscriptionStorage postgresql.healthy) ⟨100, 0⟩
          [{ id := 7, owner_id := 9, service_name := "Ivi", price := 1,
             is_deleted := false, start_time := ⟨90, 0⟩, end_time := none }]
          { SubscriptionID := 7, UserID := 4, Service := "Okko", StartTime := ⟨50, 2⟩,
            EndTime := none, PriceRUB := 300 }
        = ⟨[{ id := 7, owner_id := 9, service_name := "Ivi", price := 1,
              is_deleted := false, start_time := ⟨90, 0⟩, end_time := none }],
            [Call.FindByID 7], .error { Code := ErrInvalidInput, Message := msg }⟩) ∨
    (∃ e,
      (UpdateExistingSubscription (postgresql.NewSubscriptionStorage postgresql.healthy) ⟨100, 0⟩
          [{ id := 7, owner_id := 3, service_name := "Netflix", price := 500,
             is_deleted := false, start_time := ⟨10, 0⟩, end_time := some ⟨20, 0⟩ }]
          { SubscriptionID := 7, UserID := 4, Service := "Okko", StartTime := ⟨50, 2⟩,
            EndTime := none, PriceRUB := 300 }).calls = [Call.FindByID 7, Call.Update e] ∧
      (UpdateExistingSubscription (postgresql.NewSubscriptionStorage postgresql.healthy) ⟨100, 0⟩
          [{ id := 7, owner_id := 9, service_name := "Ivi", price := 1,
             is_deleted := false, start_time := ⟨90, 0⟩, end_time := none }]
          { SubscriptionID := 7, UserID := 4, Service := "Okko", StartTime := ⟨50, 2⟩,
            EndTime := none, PriceRUB := 300 }).calls = [Call.FindByID 7, Call.Update e] ∧
      (((postgresql.NewSubscriptionStorage postgresql.healthy).Update
          [{ id := 7, owner_id := 3, service_name := "Netflix", price := 500,
             is_deleted := false, start_time := ⟨10, 0⟩, end_time := some ⟨20, 0⟩ }] e).2 = none →
        (UpdateExistingSubscription (postgresql.NewSubscriptionStorage postgresql.healthy)
          ⟨100, 0⟩
          [{ id := 7, owner_id := 3, service_name := "Netflix", price := 500,
             is_deleted := false, start_time := ⟨10, 0⟩, end_time := some ⟨20, 0⟩ }]
          { SubscriptionID := 7, UserID := 4, Service := "Okko", StartTime := ⟨50, 2⟩,
            EndTime := none, PriceRUB := 300 }).result = .ok e) ∧
      (((postgresql.NewSubscriptionStorage postgresql.healthy).Update
          [{ id := 7, owner_id := 9, service_name := "Ivi", price := 1,
             is_deleted := false, start_time := ⟨90, 0⟩, end_time := none }] e).2 = none →
        (UpdateExistingSubscription (postgresql.NewSubscriptionStorage postgresql.healthy)
          ⟨100, 0⟩
          [{ id := 7, owner_id := 9, service_name := "Ivi", price := 1,
             is_deleted := false, start_time := ⟨90, 0⟩, end_time := none }]
          { SubscriptionID := 7, UserID := 4, Service := "Okko", StartTime := ⟨50, 2⟩,
            EndTime := none, PriceRUB := 300 }).result = .ok e)) :=
  UpdateExistingSubscription_ignores_stored_fields
    (postgresql.NewSubscriptionStorage postgresql.healthy)
    (postgresql.NewSubscriptionStorage postgresql.healthy) ⟨100, 0⟩
    [{ id := 7, owner_id := 3, service_name := "Netflix", price := 500,
       is_deleted := false, start_time := ⟨10, 0⟩, end_time := some ⟨20, 0⟩ }]
    [{ id := 7, owner_id := 3, service_name := "Netflix", price := 500,
       is_deleted := false, start_time := ⟨10, 0⟩, end_time := some ⟨20, 0⟩ }]
    [{ id := 7, owner_id := 9, service_name := "Ivi", price := 1,
       is_deleted := false, start_time := ⟨90, 0⟩, end_time := none }]
    [{ id := 7, owner_id := 9, service_name := "Ivi", price := 1,
       is_deleted := false, start_time := ⟨90, 0⟩, end_time := none }]
    { SubscriptionID := 7, UserID := 4, Service := "Okko", StartTime := ⟨50, 2⟩,
      EndTime := none, PriceRUB := 300 }
    { ID := 7, ServiceName := "Netflix", PriceRUB := 500, StartedAt := ⟨10, 0⟩,
      CompletedAt := some ⟨20, 0⟩, Owner := 3 }
    { ID := 7, ServiceName := "Ivi", PriceRUB := 1, StartedAt := ⟨90, 0⟩,
      CompletedAt := none, Owner := 9 }
    (by decide) (by decide) (by decide)

/-! ## Create and find -/

/-- The entity returned by a successful `NewSubscription` with a working id
generator. -/
theorem NewSubscription_ok_shape (now : Time) (id : UUID) (owner : PersonID)
    (priceRUB : Int) (service : ServiceName) (startTime : Time) (endTime : Option Time)
    (sub : Subscription)
    (h : NewSubscription now (.ok id) owner priceRUB service startTime endTime = .ok sub) :
    sub = { ID := id, ServiceName := strings.Trim service " ", PriceRUB := priceRUB,
            StartedAt := startTime.UTC, CompletedAt := endTime.map Time.UTC, Owner := owner } := by
  simp only [NewSubscription] at h
  split_ifs at h
  simp only [Except.ok.injEq] at h
  exact h.symm

/-- A search for an id that no row of the table carries finds nothing. -/
theorem find?_fresh_id (tbl : List postgresql.Row) (id : SubscriptionID)
    (hfresh : ∀ r ∈ tbl, r.id ≠ id) :
    tbl.find? (fun r => decide (r.id = id ∧ r.is_deleted = false)) = none := by
  rw [List.find?_eq_none]
  intro r hr
  simp [hfresh r hr]

/-- C14, as stated, fails on the service name: creating with the valid name
`" Netflix "` succeeds, and `FindSubscriptionByID` on the resulting table
returns the name `"Netflix"`, which is not the name given. -/
theorem create_then_find_returns_trimmed_name :
    (CreateNewSubscription (postgresql.NewSubscriptionStorage postgresql.healthy) ⟨100, 0⟩
        (.ok 7) []
        { UserID := 3, Service := " Netflix ", StartTime := ⟨50, 0⟩, EndTime := none,
          PriceRUB := 500 }).result
      = .ok { ID := 7, ServiceName := "Netflix", PriceRUB := 500, StartedAt := ⟨50, 0⟩,
              CompletedAt := none, Owner := 3 } ∧
    (FindSubscriptionByID (postgresql.NewSubscriptionStorage postgresql.healthy)
        (CreateNewSubscription (postgresql.NewSubscriptionStorage postgresql.healthy) ⟨100, 0⟩
          (.ok 7) []
          { UserID := 3, Service := " Netflix ", StartTime := ⟨50, 0⟩, EndTime := none,
            PriceRUB := 500 }).store 7).result
      = .ok { ID := 7, ServiceName := "Netflix", PriceRUB := 500, StartedAt := ⟨50, 0⟩,
              CompletedAt := none, Owner := 3 } ∧
    "Netflix" ≠ " Netflix " := by
  decide

/-- C14, amended. On the SQL repository, with a generated id that no row of the
table carries yet and a database whose queries do not fail: after
`CreateNewSubscription` succeeds and returns `e`, `FindSubscriptionByID(e.ID)`
on the resulting table succeeds and returns `e` itself, and `e` has the owner,
the price, the start time and the optional end time given (same instants, in
UTC) and the service name given with its leading and trailing spaces removed;
`IsCompleted` is false when no end time was given. -/
theorem create_then_find_round_trip (c : postgresql.Client) (tbl : List postgresql.Row)
    (now : Time) (id : UUID) (a : CreateNewSubscriptionArgs) (e : Subscription)
    (hfresh : ∀ r ∈ tbl, r.id ≠ id) (hquery : c.query = none)
    (hcreate : (CreateNewSubscription (postgresql.NewSubscriptionStorage c) now (.ok id) tbl
        a).result = .ok e) :
    (FindSubscriptionByID (postgresql.NewSubscriptionStorage c)
        (CreateNewSubscription (postgresql.NewSubscriptionStorage c) now (.ok id) tbl a).store
        e.ID).result = .ok e ∧
    e.ID = id ∧ e.Owner = a.UserID ∧ e.PriceRUB = a.PriceRUB ∧
    e.ServiceName = strings.Trim a.Service " " ∧
    e.StartedAt = a.StartTime.UTC ∧ e.StartedAt.Equal a.StartTime = true ∧
    e.CompletedAt = a.EndTime.map Time.UTC ∧
    (a.EndTime = none → e.IsCompleted = false) := by
  cases hn : NewSubscription now (.ok id) a.UserID a.PriceRUB a.Service a.StartTime a.EndTime with
  | error msg => simp [CreateNewSubscription, hn] at hcreate
  | ok sub =>
    have hshape := NewSubscription_ok_shape now id a.UserID a.PriceRUB a.Service a.StartTime
      a.EndTime sub hn
    have hfind := find?_fresh_id tbl id hfresh
    cases hb : c.begin with
    | some err =>
      simp [CreateNewSubscription, hn, postgresql.NewSubscriptionStorage, postgresql.Add, hb]
        at hcreate
    | none =>
      cases hx : c.exec with
      | some err =>
        cases hpg : AsPgError err <;>
          simp [CreateNewSubscription, hn, postgresql.NewSubscriptionStorage, postgresql.Add,
            hb, hx, hpg] at hcreate
      | none =>
        cases hc : c.commit with
        | some err =>
          simp [CreateNewSubscription, hn, postgresql.NewSubscriptionStorage, postgresql.Add,
            hb, hx, hc] at hcreate
        | none =>
          simp only [CreateNewSubscription, hn, postgresql.NewSubscriptionStorage,
            postgresql.Add, hb, hx, hc, Except.ok.injEq] at hcreate ⊢
          subst hcreate
          subst hshape
          refine ⟨?_, rfl, rfl, rfl, rfl, rfl, Time.Equal_UTC _, rfl, ?_⟩
          · simp only [FindSubscriptionByID, postgresql.FindByID, hquery, List.find?_append,
              hfind]
            cases a.EndTime <;>
              simp [postgresql.Row.scan, Subscription.IsCompleted, Time.UTC]
          · intro h
            simp [Subscription.IsCompleted, h]

/-- C14 amended, at a concrete input: the scenario of the specification, with a
name that carries spaces. -/
theorem create_then_find_round_trip_witness :
    (FindSubscriptionByID (postgresql.NewSubscriptionStorage postgresql.healthy)
        (CreateNewSubscription (postgresql.NewSubscriptionStorage postgresql.healthy) ⟨100, 0⟩
          (.ok 7) []
          { UserID := 3, Service := " Netflix ", StartTime := ⟨50, 2⟩, EndTime := none,
            PriceRUB := 500 }).store
        (Subscription.ID
          { ID := 7, ServiceName := "Netflix", PriceRUB := 500, StartedAt := ⟨50, 0⟩,
            CompletedAt := none, Owner := 3 })).result
      = .ok { ID := 7, ServiceName := "Netflix", PriceRUB := 500, StartedAt := ⟨50, 0⟩,
              CompletedAt := none, Owner := 3 } :=
  (create_then_find_round_trip postgresql.healthy [] ⟨100, 0⟩ 7
    { UserID := 3, Service := " Netflix ", StartTime := ⟨50, 2⟩, EndTime := none,
      PriceRUB := 500 }
    { ID := 7, ServiceName := "Netflix", PriceRUB := 500, StartedAt := ⟨50, 0⟩,
      CompletedAt := none, Owner := 3 }
    (by simp) (by decide) (by decide)).1

/-! ## The connect retry -/

/-- Adding a multiple of 2^64 does not change the wrapped value. -/
theorem wrapInt64_add_mul (x t : Int) :
    wrapInt64 (x + 18446744073709551616 * t) = wrapInt64 x := by
  unfold wrapInt64
  have h : x + 18446744073709551616 * t + 9223372036854775808
      = (x + 9223372036854775808) + 18446744073709551616 * t := by ring
  rw [h, Int.add_mul_emod_self_left]

/-- A wrapped value differs from the exact one by a multiple of 2^64. -/
theorem wrapInt64_eq_add_mul (x : Int) :
    ∃ q, wrapInt64 x = x + 18446744073709551616 * q :=
  ⟨-((x + 9223372036854775808) / 18446744073709551616), by unfold wrapInt64; omega⟩

/-- Wrapping the product of two wrapped values gives the wrapped product. -/
theorem wrapInt64_mul (a b : Int) : wrapInt64 (wrapInt64 a * wrapInt64 b) = wrapInt64 (a * b) := by
  obtain ⟨qa, ha⟩ := wrapInt64_eq_add_mul a
  obtain ⟨qb, hb⟩ := wrapInt64_eq_add_mul b
  rw [ha, hb]
  have h : (a + 18446744073709551616 * qa) * (b + 18446744073709551616 * qb)
      = a * b + 18446744073709551616 * (qa * b + a * qb + 18446744073709551616 * qa * qb) := by
    ring
  rw [h, wrapInt64_add_mul]

/-- While `fn` keeps failing, the loop of `doWithTries` entered after `k`
failures with `delay = k! × d` and factor `k + 1` (both as `int64`) sleeps
`(k+1)! × d`, `(k+2)! × d`, and so on. -/
theorem pgsql.doWithTriesLoop_slept (fn : Nat → Option Error) (hfail : ∀ i, fn i ≠ none)
    (d : Int) (n : Nat) :
    ∀ (k : Nat) (err : Option Error) (slept : List Int),
      (pgsql.doWithTriesLoop fn n k (wrapInt64 (d * ((k + 1).factorial : Int)))
        (wrapInt64 ((k : Int) + 1)) err slept).slept
      = slept ++ (List.range n).map (fun i => wrapInt64 (d * ((k + i + 1).factorial : Int))) := by
  induction n with
  | zero =>
    intro k err slept
    simp [pgsql.doWithTriesLoop]
  | succ n ih =>
    intro k err slept
    cases hk : fn k with
    | none => exact absurd hk (hfail k)
    | some e =>
      simp only [pgsql.doWithTriesLoop, hk]
      have hfac : wrapInt64 (wrapInt64 ((k : Int) + 1) + 1) = wrapInt64 (((k + 1 : Nat) : Int) + 1) := by
        rw [wrapInt64_add_left]
        push_cast
        rfl
      have hprod : d * ((k + 1).factorial : Int) * ((k : Int) + 1 + 1)
          = d * ((k + 1 + 1).factorial : Int) := by
        rw [Nat.factorial_succ (k + 1)]
        push_cast
        ring
      have hdelay : wrapInt64 (wrapInt64 (d * ((k + 1).factorial : Int))
            * wrapInt64 (wrapInt64 ((k : Int) + 1) + 1))
          = wrapInt64 (d * ((k + 1 + 1).factorial : Int)) := by
        rw [wrapInt64_add_left, wrapInt64_mul, hprod]
      have hlist : (List.range (n + 1)).map
            (fun i => wrapInt64 (d * ((k + i + 1).factorial : Int)))
          = wrapInt64 (d * ((k + 1).factorial : Int)) ::
              (List.range n).map (fun i => wrapInt64 (d * ((k + 1 + i + 1).factorial : Int))) := by
        rw [List.range_succ_eq_map, List.map_cons, List.map_map]
        refine congrArg₂ List.cons rfl (List.map_congr_left ?_)
        intro i _
        show wrapInt64 (d * ((k + (i + 1) + 1).factorial : Int)) = _
        rw [show k + (i + 1) + 1 = k + 1 + i + 1 by omega]
      rw [hdelay, hfac, ih (k + 1) (some e) (slept ++ [wrapInt64 (d * ((k + 1).factorial : Int))]),
        hlist, List.append_assoc, List.singleton_append]

/-- C16, as stated, fails: with 5 attempts that all fail and a 5-second fragment
the delays slept are 5 s, 10 s, 30 s, 120 s and 600 s, not 5, 10, 15, 20 and
25 s. -/
theorem doWithTries_delays_not_linear :
    (pgsql.doWithTries (fun _ => some (.other "connection refused")) 5 (5 * pgsql.Second)).slept
      = [5 * pgsql.Second, 10 * pgsql.Second, 30 * pgsql.Second, 120 * pgsql.Second,
         600 * pgsql.Second] ∧
    (pgsql.doWithTries (fun _ => some (.other "connection refused")) 5 (5 * pgsql.Second)).slept
      ≠ [5 * pgsql.Second, 10 * pgsql.Second, 15 * pgsql.Second, 20 * pgsql.Second,
         25 * pgsql.Second] := by
  decide

/-- C16, amended. When `fn` fails on every call, the delay slept after the
`k`-th failed attempt (`k = 1, ..., attempts`) is `k! × delayFragment`, reduced
to an `int64` by wrap-around: each delay is the one before it multiplied by
`k`. There is one sleep for each attempt, and the delay is exactly
`k! × delayFragment` whenever that product fits an `int64`. -/
theorem doWithTries_delays_factorial (fn : Nat → Option Error) (attemtps : Int)
    (delayFragment : Int) (hfail : ∀ i, fn i ≠ none)
    (hlo : -9223372036854775808 ≤ delayFragment) (hhi : delayFragment < 9223372036854775808) :
    (pgsql.doWithTries fn attemtps delayFragment).slept
        = (List.range attemtps.toNat).map
            (fun i => wrapInt64 (((i + 1).factorial : Int) * delayFragment)) ∧
    (pgsql.doWithTries fn attemtps delayFragment).slept.length = attemtps.toNat ∧
    (∀ k : Nat, 1 ≤ k → (k : Int) ≤ attemtps →
      -9223372036854775808 ≤ (k.factorial : Int) * delayFragment →
      (k.factorial : Int) * delayFragment < 9223372036854775808 →
      (pgsql.doWithTries fn attemtps delayFragment).slept.get? (k - 1)
        = some ((k.factorial : Int) * delayFragment)) := by
  have key : (pgsql.doWithTries fn attemtps delayFragment).slept
        = (List.range attemtps.toNat).map
            (fun i => wrapInt64 (((i + 1).factorial : Int) * delayFragment)) := by
    have h := pgsql.doWithTriesLoop_slept fn hfail delayFragment attemtps.toNat 0 none []
    simp only [Nat.zero_add, Nat.factorial_one, Nat.cast_one, mul_one, Nat.cast_zero, zero_add,
      List.nil_append] at h
    have h1 : wrapInt64 1 = 1 := by decide
    rw [wrapInt64_of_range delayFragment hlo hhi, h1] at h
    unfold pgsql.doWithTries
    rw [h]
    apply List.map_congr_left
    intro i _
    rw [mul_comm]
  refine ⟨key, ?_, ?_⟩
  · rw [key]
    simp
  · intro k hk1 hk2 h1 h2
    rw [key, List.get?_eq_getElem?, List.getElem?_map, List.getElem?_range (by omega)]
    simp only [Option.map_some']
    rw [Nat.sub_add_cancel hk1, wrapInt64_of_range _ h1 h2]

/-- C16 amended, at the configured input: the third delay of five is 30 s. -/
theorem doWithTries_delays_factorial_witness :
    (pgsql.doWithTries (fun _ => some (.other "connection refused")) 5 (5 * pgsql.Second)).slept.get?
        (3 - 1) = some (((3 : Nat).factorial : Int) * (5 * pgsql.Second)) :=
  (doWithTries_delays_factorial (fun _ => some (.other "connection refused")) 5
    (5 * pgsql.Second) (by simp) (by decide) (by decide)).2.2 3 (by decide) (by decide)
    (by decide) (by decide)

/-- The loop of `doWithTries` invokes `fn` at most once for each remaining
attempt. -/
theorem pgsql.doWithTriesLoop_invoked_le (fn : Nat → Option Error) (n : Nat) :
    ∀ (k : Nat) (delay factor : Int) (err : Option Error) (slept : List Int),
      (pgsql.doWithTriesLoop fn n k delay factor err slept).invoked ≤ k + n := by
  induction n with
  | zero =>
    intro k delay factor err slept
    simp [pgsql.doWithTriesLoop]
  | succ n ih =>
    intro k delay factor err slept
    cases hk : fn k with
    | none =>
      simp only [pgsql.doWithTriesLoop, hk]
      omega
    | some e =>
      simp only [pgsql.doWithTriesLoop, hk]
      have := ih (k + 1) (wrapInt64 (delay * wrapInt64 (factor + 1))) (wrapInt64 (factor + 1))
        (some e) (slept ++ [delay])
      omega

/-- The loop of `doWithTries` stops at the first success: `fn` is invoked once
more than it failed, and nil is returned. -/
theorem pgsql.doWithTriesLoop_first_success (fn : Nat → Option Error) (i : Nat) :
    ∀ (n k : Nat) (delay factor : Int) (err : Option Error) (slept : List Int),
      i < n → fn (k + i) = none → (∀ j, j < i → fn (k + j) ≠ none) →
      (pgsql.doWithTriesLoop fn n k delay factor err slept).invoked = k + i + 1 ∧
      (pgsql.doWithTriesLoop fn n k delay factor err slept).err = none := by
  induction i with
  | zero =>
    intro n k delay factor err slept hn hok _
    obtain ⟨m, rfl⟩ : ∃ m, n = m + 1 := ⟨n - 1, by omega⟩
    simp only [Nat.add_zero] at hok
    simp [pgsql.doWithTriesLoop, hok]
  | succ i ih =>
    intro n k delay factor err slept hn hok hfail
    obtain ⟨m, rfl⟩ : ∃ m, n = m + 1 := ⟨n - 1, by omega⟩
    cases hk : fn k with
    | none => exact absurd hk (by simpa using hfail 0 (by omega))
    | some e =>
      simp only [pgsql.doWithTriesLoop, hk]
      have h := ih m (k + 1) (wrapInt64 (delay * wrapInt64 (factor + 1)))
        (wrapInt64 (factor + 1)) (some e) (slept ++ [delay]) (by omega)
        (by rw [show k + 1 + i = k + (i + 1) by omega]; exact hok)
        (by
          intro j hj
          rw [show k + 1 + j = k + (j + 1) by omega]
          exact hfail (j + 1) (by omega))
      rw [show k + (i + 1) + 1 = k + 1 + i + 1 by omega]
      exact h

/-- When every attempt fails, the loop of `doWithTries` invokes `fn` once for
each attempt and returns the error of the last invocation. -/
theorem pgsql.doWithTriesLoop_all_fail (fn : Nat → Option Error) (n : Nat) :
    ∀ (k : Nat) (delay factor : Int) (err : Option Error) (slept : List Int),
      (∀ j, j < n + 1 → fn (k + j) ≠ none) →
      (pgsql.doWithTriesLoop fn (n + 1) k delay factor err slept).invoked = k + n + 1 ∧
      (pgsql.doWithTriesLoop fn (n + 1) k delay factor err slept).err = fn (k + n) := by
  induction n with
  | zero =>
    intro k delay factor err slept hfail
    cases hk : fn k with
    | none => exact absurd hk (by simpa using hfail 0 (by omega))
    | some e => simp [pgsql.doWithTriesLoop, hk]
  | succ n ih =>
    intro k delay factor err slept hfail
    cases hk : fn k with
    | none => exact absurd hk (by simpa using hfail 0 (by omega))
    | some e =>
      have h := ih (k + 1) (wrapInt64 (delay * wrapInt64 (factor + 1)))
        (wrapInt64 (factor + 1)) (some e) (slept ++ [delay])
        (by
          intro j hj
          rw [show k + 1 + j = k + (j + 1) by omega]
          exact hfail (j + 1) (by omega))
      rw [show k + 1 + n + 1 = k + (n + 1) + 1 by omega,
        show k + 1 + n = k + (n + 1) by omega] at h
      rw [pgsql.doWithTriesLoop]
      simp only [hk]
      exact h

/-- C17. `doWithTries` invokes `fn` at most `max(attemtps, 0)` times. If the
`i`-th invocation (counted from 0, with `i < attemtps`) is the first to succeed,
`fn` is invoked `i + 1` times and nil is returned. If `attemtps ≥ 1` and all
`attemtps` invocations fail, `fn` is invoked `attemtps` times and the error of
the last one is returned. If `attemtps ≤ 0`, `fn` is not invoked, nothing is
slept and nil is returned, so that `NewClient` returns a nil pool and a nil
error. -/
theorem doWithTries_attempts (fn : Nat → Option Error) (attemtps : Int)
    (delayFragment : Int) :
    (pgsql.doWithTries fn attemtps delayFragment).invoked ≤ (max attemtps 0).toNat ∧
    (∀ i : Nat, (i : Int) < attemtps → fn i = none → (∀ j, j < i → fn j ≠ none) →
      (pgsql.doWithTries fn attemtps delayFragment).invoked = i + 1 ∧
      (pgsql.doWithTries fn attemtps delayFragment).err = none) ∧
    (1 ≤ attemtps → (∀ j : Nat, (j : Int) < attemtps → fn j ≠ none) →
      (pgsql.doWithTries fn attemtps delayFragment).invoked = attemtps.toNat ∧
      (pgsql.doWithTries fn attemtps delayFragment).err = fn (attemtps.toNat - 1) ∧
      (pgsql.doWithTries fn attemtps delayFragment).err ≠ none) ∧
    (attemtps ≤ 0 →
      pgsql.doWithTries fn attemtps delayFragment = { err := none, invoked := 0, slept := [] }) ∧
    (∀ (Pool : Type) (connect : Nat → Except Error Pool), attemtps ≤ 0 →
      pgsql.NewClient connect attemtps = (none, none)) := by
  have hzero : ∀ (g : Nat → Option Error) (d : Int), attemtps ≤ 0 →
      pgsql.doWithTries g attemtps d = { err := none, invoked := 0, slept := [] } := by
    intro g d h
    have h0 : attemtps.toNat = 0 := by omega
    simp [pgsql.doWithTries, h0, pgsql.doWithTriesLoop]
  refine ⟨?_, ?_, ?_, hzero fn delayFragment, ?_⟩
  · have h := pgsql.doWithTriesLoop_invoked_le fn attemtps.toNat 0 delayFragment 1 none []
    simp only [pgsql.doWithTries]
    have h1 : (max attemtps 0).toNat = attemtps.toNat := by omega
    omega
  · intro i hi hok hfail
    have h := pgsql.doWithTriesLoop_first_success fn i attemtps.toNat 0 delayFragment 1 none []
      (by omega) (by simpa using hok) (by intro j hj; simpa using hfail j hj)
    simpa [pgsql.doWithTries] using h
  · intro h1 hfail
    obtain ⟨n, hn⟩ : ∃ n, attemtps.toNat = n + 1 := ⟨attemtps.toNat - 1, by omega⟩
    have h := pgsql.doWithTriesLoop_all_fail fn n 0 delayFragment 1 none []
      (by intro j hj; simpa using hfail j (by omega))
    simp only [Nat.zero_add] at h
    simp only [pgsql.doWithTries, hn, Nat.add_sub_cancel]
    exact ⟨h.1, h.2, by rw [h.2]; exact hfail n (by omega)⟩
  · intro Pool connect h
    simp [pgsql.NewClient, hzero _ _ h]

/-- C17, at a concrete input: of 5 attempts the third succeeds; `fn` is invoked
3 times and nil is returned. -/
theorem doWithTries_attempts_witness :
    (pgsql.doWithTries (fun i => if i < 2 then some (.other "connection refused") else none) 5
        (5 * pgsql.Second)).invoked = 2 + 1 ∧
    (pgsql.doWithTries (fun i => if i < 2 then some (.other "connection refused") else none) 5
        (5 * pgsql.Second)).err = none :=
  (doWithTries_attempts (fun i => if i < 2 then some (.other "connection refused") else none) 5
    (5 * pgsql.Second)).2.1 2 (by decide) (by decide)
    (by intro j hj; simp [hj])

/-! ## The text of the `Find` query -/

set_option maxRecDepth 100000 in
/-- The base query ends with the restriction to rows that are not deleted. -/
theorem postgresql.sqlBase_where :
    "WHERE is_deleted = 0::BIT".data <:+ postgresql.sqlBase.data := by
  decide

/-- C18. The query that `Find` builds is `sqlBase` (a `SELECT` whose `WHERE`
clause is `is_deleted = 0::BIT`), then ` AND owner_id = $i` exactly when
`OwnerID` is not nil, ` AND service_name = $i` exactly when `ServiceName` is not
empty, ` AND start_time >= $i` exactly when `StartTime` is set and
` AND start_time <= $i` exactly when `EndTime` is set, in this order, then
` ORDER BY id;`. The number `i` of a placeholder is the count of the filter
fields set up to and including its own, so the placeholders are 1, ..., n with
n the length of the argument list, and the argument at position `i` is the
value of the field whose predicate carries `$i` (times in UTC). The empty filter
adds no predicate and no argument. -/
theorem FindQuery_text_and_args (f : SubscriptionsFilter) :
    let n1 : Nat := if f.OwnerID ≠ uuid.Nil then 1 else 0
    let n2 : Nat := n1 + (if f.ServiceName ≠ "" then 1 else 0)
    let n3 : Nat := n2 + (if f.StartTime.isSome then 1 else 0)
    let n4 : Nat := n3 + (if f.EndTime.isSome then 1 else 0)
    (postgresql.FindQuery f).1
      = postgresql.sqlBase
        ++ (if f.OwnerID ≠ uuid.Nil then " AND owner_id = $" ++ toString n1 else "")
        ++ (if f.ServiceName ≠ "" then " AND service_name = $" ++ toString n2 else "")
        ++ (if f.StartTime.isSome then " AND start_time >= $" ++ toString n3 else "")
        ++ (if f.EndTime.isSome then " AND start_time <= $" ++ toString n4 else "")
        ++ " ORDER BY id;" ∧
    (postgresql.FindQuery f).2
      = (if f.OwnerID ≠ uuid.Nil then [postgresql.QueryArg.uuid f.OwnerID] else [])
        ++ (if f.ServiceName ≠ "" then [postgresql.QueryArg.text f.ServiceName] else [])
        ++ (match f.StartTime with
            | some t => [postgresql.QueryArg.timestamp t.UTC]
            | none => [])
        ++ (match f.EndTime with
            | some t => [postgresql.QueryArg.timestamp t.UTC]
            | none => []) ∧
    (postgresql.FindQuery f).2.length = n4 ∧
    (f.OwnerID ≠ uuid.Nil →
      (postgresql.FindQuery f).2.get? (n1 - 1) = some (postgresql.QueryArg.uuid f.OwnerID)) ∧
    (f.ServiceName ≠ "" →
      (postgresql.FindQuery f).2.get? (n2 - 1)
        = some (postgresql.QueryArg.text f.ServiceName)) ∧
    (∀ t, f.StartTime = some t →
      (postgresql.FindQuery f).2.get? (n3 - 1) = some (postgresql.QueryArg.timestamp t.UTC)) ∧
    (∀ t, f.EndTime = some t →
      (postgresql.FindQuery f).2.get? (n4 - 1) = some (postgresql.QueryArg.timestamp t.UTC)) ∧
    postgresql.FindQuery { ServiceName := "", OwnerID := uuid.Nil, StartTime := none,
                           EndTime := none }
      = (postgresql.sqlBase ++ " ORDER BY id;", []) ∧
    "WHERE is_deleted = 0::BIT".data <:+ postgresql.sqlBase.data := by
  intro n1 n2 n3 n4
  have hbase := postgresql.sqlBase_where
  obtain ⟨name, owner, st, en⟩ := f
  by_cases h1 : owner = uuid.Nil <;> by_cases h2 : name = "" <;> cases st <;> cases en <;>
    simp [n1, n2, n3, n4, postgresql.FindQuery, h1, h2, String.append_assoc, hbase]

/-- C18, at a concrete input: owner 3, service "X", no start bound, end bound 5;
the service name is the second argument. -/
theorem FindQuery_text_and_args_witness :
    (postgresql.FindQuery { ServiceName := "X", OwnerID := 3, StartTime := none,
                            EndTime := some ⟨5, 1⟩ }).2.get? (2 - 1)
      = some (postgresql.QueryArg.text "X") :=
  (FindQuery_text_and_args { ServiceName := "X", OwnerID := 3, StartTime := none,
                             EndTime := some ⟨5, 1⟩ }).2.2.2.2.1 (by decide)
